import Mathlib

/-!
Shallow embedding of the SocialPulseAI analytics subsystem
(sentiment classifier, topic tagger, media collector, in-memory
query/comment store and analytics aggregator), together with
theorems settling the specification claims.

Modelling conventions:
* JavaScript numbers are modelled by `ℚ`; `Math.round` is `jsRound`
  (round half toward positive infinity), `Math.floor` is `Int.floor`.
  Division by zero in `ℚ` yields `0` where JavaScript yields `NaN`.
* `Date` values are modelled by `Int` day numbers; `toISOString`
  day extraction is the identity on the day number.
* `Math.random()` is modelled by an explicit stream `rng : Nat → ℚ`
  consumed at increasing indices in the source's call order.
* JavaScript `Map` objects are modelled by association lists that
  preserve insertion order, matching `Map` iteration semantics.
-/

/-- jsRound models JavaScript Math.round: round half toward +∞. -/
def jsRound (x : ℚ) : ℤ := ⌊x + 1/2⌋

/-- jsFloor models JavaScript Math.floor on a finite number. -/
def jsFloor (x : ℚ) : ℤ := ⌊x⌋

/-- charsPrefixOf sub l is true when sub is a prefix of l. -/
def charsPrefixOf : List Char → List Char → Bool
  | [], _ => true
  | _ :: _, [] => false
  | a :: as, b :: bs => a == b && charsPrefixOf as bs

/-- charsInfixOf sub l is true when sub occurs contiguously in l. -/
def charsInfixOf (sub : List Char) : List Char → Bool
  | [] => charsPrefixOf sub []
  | l@(_ :: rest) => charsPrefixOf sub l || charsInfixOf sub rest

/-- strIncludes s sub models JavaScript s.includes(sub). -/
def strIncludes (s sub : String) : Bool := charsInfixOf sub.data s.data

/-- strStartsWithOneOf s alts models an anchored regex alternation test. -/
def strStartsWithOneOf (s : String) (alts : List String) : Bool :=
  alts.any (fun a => charsPrefixOf a.data s.data)

/-- scanCountAux is the fuel-indexed scanner behind scanCount; the fuel
bounds the number of characters still to inspect, so structural
recursion on it is exact when fuel starts at the list length. -/
def scanCountAux (alts : List (List Char)) : Nat → List Char → Nat
  | 0, _ => 0
  | _, [] => 0
  | fuel + 1, c :: rest =>
    match alts.find? (fun a => charsPrefixOf a (c :: rest)) with
    | some a => 1 + scanCountAux alts fuel (rest.drop (a.length - 1))
    | none => scanCountAux alts fuel rest

/-- scanCount counts non-overlapping matches of a regex alternation,
scanning left to right and trying alternatives in order, as a global
JavaScript regex of literal alternatives does. -/
def scanCount (alts : List (List Char)) (l : List Char) : Nat :=
  scanCountAux alts l.length l

/-- nonWsRuns collects the maximal non-whitespace runs of a character
list, in order. -/
def nonWsRuns (l : List Char) : List String :=
  let r := l.foldl
    (fun (acc : List (List Char) × List Char) (c : Char) =>
      if c.isWhitespace then
        (if acc.2 = [] then acc.1 else acc.1 ++ [acc.2], [])
      else (acc.1, acc.2 ++ [c]))
    ([], [])
  (if r.2 = [] then r.1 else r.1 ++ [r.2]).map String.mk

/-- jsSplitWs models JavaScript s.split on a whitespace-run regex:
maximal non-whitespace runs, plus an empty leading (resp. trailing)
token when the string starts (resp. ends) with whitespace, and a
single empty token for the empty string. -/
def jsSplitWs (s : String) : List String :=
  match s.data with
  | [] => [""]
  | c :: rest =>
    let toks := nonWsRuns (c :: rest)
    let toks := if c.isWhitespace then "" :: toks else toks
    if ((c :: rest).getLast (by simp)).isWhitespace then toks ++ [""] else toks

/-- assocGet models JavaScript Map.get on an insertion-ordered list. -/
def assocGet {α : Type} (l : List (Nat × α)) (k : Nat) : Option α :=
  (l.find? (fun kv => kv.1 == k)).map (fun kv => kv.2)

/-- assocSet models JavaScript Map.set: update in place when the key
exists, otherwise append, preserving insertion order. -/
def assocSet {α : Type} (l : List (Nat × α)) (k : Nat) (v : α) : List (Nat × α) :=
  if (l.find? (fun kv => kv.1 == k)).isSome then
    l.map (fun kv => if kv.1 == k then (k, v) else kv)
  else l ++ [(k, v)]

/-- sBump increments a string-keyed counter map held as an
insertion-ordered association list, as JavaScript objects with
non-numeric string keys behave. -/
def sBump (l : List (String × Nat)) (k : String) (amount : Nat) : List (String × Nat) :=
  if (l.find? (fun kv => kv.1 == k)).isSome then
    l.map (fun kv => if kv.1 == k then (kv.1, kv.2 + amount) else kv)
  else l ++ [(k, amount)]

/-- insertDescBy inserts an element into a list sorted descending by
key, placing it after existing elements of equal key (stability). -/
def insertDescBy {α : Type} (key : α → ℤ) (x : α) : List α → List α
  | [] => [x]
  | y :: ys => if key y < key x then x :: y :: ys else y :: insertDescBy key x ys

/-- sortDescBy is a stable descending sort by an integer key, matching
the stable JavaScript Array.prototype.sort with comparator b-a. -/
def sortDescBy {α : Type} (key : α → ℤ) (l : List α) : List α :=
  l.foldl (fun acc x => insertDescBy key x acc) []

/-- jsToLower models JavaScript toLowerCase for the character sets
appearing in this program (ASCII letters; Telugu has no case). -/
def jsToLower (s : String) : String := String.mk (s.data.map Char.toLower)

/-- trimWs removes leading and trailing whitespace, modelling
JavaScript String.prototype.trim. -/
def trimWs (s : String) : String :=
  String.mk (((s.data.dropWhile Char.isWhitespace).reverse.dropWhile Char.isWhitespace).reverse)

/-- stripWs removes every whitespace character, modelling
replace with a global whitespace regex and an empty replacement. -/
def stripWs (s : String) : String := String.mk (s.data.filter (fun c => !c.isWhitespace))

/-- anySuffix p l is true when p holds of some suffix of l, modelling
an unanchored regex test that tries every start position. -/
def anySuffix (p : List Char → Bool) : List Char → Bool
  | [] => p []
  | l@(_ :: rest) => p l || anySuffix p rest

/-- SentimentResult is the record returned by the sentiment classifier:
a sentiment label and a confidence score. -/
structure SentimentResult where
  sentiment : String
  score : ℚ
deriving DecidableEq, Repr

namespace SentimentAnalyzer

/-- neutralNames is the list of names treated as neutral by the classifier. -/
def neutralNames : List String := ["V.prasad", "v.prasad"]

/-- containsNeutralName checks whether the text mentions a neutral name,
case-insensitively. -/
def containsNeutralName (text : String) : Bool :=
  neutralNames.any (fun name => strIncludes (jsToLower text) (jsToLower name))

/-- punctChars is the character class of the punctuation-stripping regex
in textContainsOnlyName. -/
def punctChars : List Char := ['.', ',', '!', '?', Char.ofNat 39, Char.ofNat 34]

/-- textContainsOnlyName checks whether the text is essentially just a
neutral name, possibly with punctuation or a short honorific. -/
def textContainsOnlyName (text : String) : Bool :=
  let cleanText := trimWs (String.mk ((jsToLower text).data.filter (fun c => !(punctChars.contains c))))
  neutralNames.any (fun name =>
    let nameLower := jsToLower name
    cleanText == nameLower || cleanText == "the " ++ nameLower ||
    cleanText == "mr " ++ nameLower || cleanText == "sri " ++ nameLower ||
    cleanText == "శ్రీ " ++ nameLower)

/-- heartEmojiAlts lists the alternatives of the heart-emoji regex, in
alternation order. -/
def heartEmojiAlts : List String :=
  ["❤", "♥", "❣", "💕", "💓", "💗", "💖", "💘", "💝", "💞", "💟", "❤️"]

/-- positiveEmojiAlts lists the alternatives of the positive-emoji regex,
in alternation order. -/
def positiveEmojiAlts : List String :=
  ["🔥", "👍", "✌️", "👏", "💪", "😎", "🙏", "👌", "😍", "🤩", "😊", "☺️", "😄", "😁"]

/-- isEmojiChar is an executable approximation of the Unicode Emoji
character property used by the source's emoji-run regexes; it covers the
emoji blocks plus the ASCII characters that carry the property. -/
def isEmojiChar (c : Char) : Bool :=
  let n := c.val.toNat
  (0x1F000 ≤ n && n ≤ 0x1FAFF) || (0x2600 ≤ n && n ≤ 0x27BF) ||
  (0x2B00 ≤ n && n ≤ 0x2BFF) || (0x2190 ≤ n && n ≤ 0x21FF) ||
  (0x30 ≤ n && n ≤ 0x39) || n == 0x23 || n == 0x2A || n == 0xA9 || n == 0xAE ||
  n == 0x203C || n == 0x2049 || n == 0x2122 || n == 0x3030

/-- emojiRunFrom k l checks that l starts with k emoji characters, each
followed by optional whitespace, modelling one attempt of the clustered
emoji regex at a fixed position. -/
def emojiRunFrom : Nat → List Char → Bool
  | 0, _ => true
  | _ + 1, [] => false
  | k + 1, c :: rest => isEmojiChar c && emojiRunFrom k (rest.dropWhile Char.isWhitespace)

/-- multipleEmojiTest models the clustered-run regex: three or more emoji
separated only by whitespace, anywhere in the text. -/
def multipleEmojiTest (l : List Char) : Bool :=
  anySuffix (emojiRunFrom 3) l

/-- repeatedEmojiTest models the repeated-emoji regex: the same emoji
character three or more times consecutively, anywhere in the text. -/
def repeatedEmojiTest : List Char → Bool
  | c1 :: c2 :: c3 :: rest =>
    (isEmojiChar c1 && c1 == c2 && c2 == c3) || repeatedEmojiTest (c2 :: c3 :: rest)
  | _ => false

/-- analyzeEmojiPatterns returns a sentiment based on emoji usage, or
none when no emoji pattern applies. -/
def analyzeEmojiPatterns (text : String) : Option SentimentResult :=
  let heartCount := scanCount (heartEmojiAlts.map String.data) text.data
  if heartCount ≥ 1 then some ⟨"positive", 8 + min (heartCount : ℚ) 5⟩
  else
    let posCount := scanCount (positiveEmojiAlts.map String.data) text.data
    if posCount ≥ 1 then some ⟨"positive", 7 + min (posCount : ℚ) 5⟩
    else if multipleEmojiTest text.data then some ⟨"positive", 85/10⟩
    else if repeatedEmojiTest text.data then some ⟨"positive", 8⟩
    else none

/-- analyzeTeluguPraisePhrases recognises fixed bilingual praise-phrase
patterns and returns a fixed positive sentiment for them. -/
def analyzeTeluguPraisePhrases (text : String) : Option SentimentResult :=
  let normalizedText := jsToLower text
  if (strIncludes normalizedText "jai" || strIncludes normalizedText "జై") &&
     (strIncludes normalizedText "suresh" || strIncludes normalizedText "సురేష్" ||
      strIncludes normalizedText "kakarla" || strIncludes normalizedText "కాకర్ల") then
    some ⟨"positive", 95/10⟩
  else if (strIncludes normalizedText "anna" || strIncludes normalizedText "అన్నా" ||
           strIncludes normalizedText "garu" || strIncludes normalizedText "గారు") &&
          (strIncludes normalizedText "suresh" || strIncludes normalizedText "సురేష్" ||
           strIncludes normalizedText "kakarla" || strIncludes normalizedText "కాకర్ల") then
    some ⟨"positive", 85/10⟩
  else if strStartsWithOneOf normalizedText ["super", "సూపర్", "hatsoff", "హాట్సాఫ్", "హాట్స్ ఆఫ్"] then
    some ⟨"positive", 8⟩
  else if strIncludes normalizedText "చాల బాగా" ||
          strIncludes normalizedText "బాగా చెప్పారు" ||
          strIncludes normalizedText "ఆనందదాయకంగా" ||
          strIncludes normalizedText "బహు ఆనందదాయకంగా" then
    some ⟨"positive", 8⟩
  else if strIncludes normalizedText "ధన్యవాదాలు" ||
          strIncludes normalizedText "అభినందనలు" ||
          strIncludes normalizedText "శుభాకాంక్షలు" then
    some ⟨"positive", 75/10⟩
  else none

/-- analyzeTeluguPoliticalSentiment recognises domain-specific Telugu
political patterns, returning none when text has no Telugu characters or
no pattern matches. -/
def analyzeTeluguPoliticalSentiment (text : String) : Option SentimentResult :=
  let containsTelugu := text.data.any (fun c => 0x0C00 ≤ c.val.toNat && c.val.toNat ≤ 0x0C7F)
  if !containsTelugu then none
  else if (strIncludes text "కాంగ్రెస్" || strIncludes text "congress") &&
          ((strIncludes text "సురేష్" || strIncludes text "suresh") &&
           (strIncludes text "విజయం" || strIncludes text "jayaho" || strIncludes text "జయహో")) then
    some ⟨"positive", 85/10⟩
  else if strIncludes text "అవినీతి" && strIncludes text "ప్రజాసేవ" then
    some ⟨"positive", 75/10⟩
  else if strIncludes text "ఘనవిజయం" || strIncludes text "ఖాయమైంది" then
    some ⟨"positive", 8⟩
  else if strIncludes text "శ్వేతం" || strIncludes text "మరకలంటని" then
    some ⟨"positive", 7⟩
  else if (strIncludes text "MLA" || strIncludes text "ఎమ్మెల్యే") &&
          (strIncludes text "బాగా" || strIncludes text "చెప్పారు" || strIncludes text "మాట్లాడారు") then
    some ⟨"positive", 8⟩
  else if (strIncludes text "అసెంబ్లీ" || strIncludes text "assembly") &&
          (strIncludes text "బాగా" || strIncludes text "చెప్పారు" || strIncludes text "మాట్లాడారు") then
    some ⟨"positive", 75/10⟩
  else none

/-- positiveWords is the bilingual positive lexicon of the classifier. -/
def positiveWords : List String := [
  "good", "great", "excellent", "amazing", "wonderful", "fantastic",
  "terrific", "outstanding", "superb", "awesome", "thanks", "thank",
  "appreciate", "happy", "love", "best", "congratulations", "well",
  "improvement", "improved", "better", "beautiful", "perfect", "success",
  "bagundi", "chala bagundi", "dhanyavadalu", "abhinandanalu",
  "manchidi", "ఎక్క", "అద్భుతం", "మంచి", "బాగుంది",
  "జయహో", "ఘనవిజయం", "శ్వేతం", "ప్రజాసేవ", "విజయం", "ఖాయమైంది",
  "తరింౘడానికి", "జయహో", "సురేష్", "ఘన", "మరకలంటని",
  "కుటుంబం", "అవినీతి మరకలంటని", "ప్రజాసేవలో",
  "నాయకత్వం", "సేవ", "సమర్పణ", "నిజాయితీ", "నిబద్ధత",
  "సంతోషం", "ఆనందం", "హర్షం", "శుభం", "రాణించు", "గెలుపు", "నమ్మకం",
  "విశ్వాసం", "ధన్యవాదాలు", "శుభాకాంక్షలు", "అభినందనలు", "ప్రగతి",
  "అభివృద్ధి", "ఉన్నతి", "సాధన", "విజయోత్సవం", "సత్ఫలితం", "సంతృప్తి",
  "సమృద్ధి", "సంపన్నత", "సాఫల్యం", "సహకారం", "స్నేహపూర్వక", "సామరస్యం",
  "ఆదర్శం", "ఉత్తమ", "చక్కని", "సుందరమైన", "రమ్యమైన", "ఉత్సాహం",
  "ప్రోత్సాహం", "ప్రేరణ", "శక్తివంతమైన", "ఆశాజనక", "నూతన", "సృష్టి",
  "పారదర్శకత", "జవాబుదారీతనం", "సమానత్వం", "స్వేచ్ఛ", "న్యాయం",
  "ప్రజాస్వామ్యం", "సుపరిపాలన", "సంక్షేమ", "సేవాధృష్టి", "ప్రజాహితం",
  "జనసేవ", "దేశభక్తి", "రాజ్యాంగబద్ధత", "సర్వజనహితం",
  "జై", "jai", "అన్నా", "anna", "గారు", "garu", "సూపర్", "super", "హాట్సాఫ్", "hatsoff",
  "హాట్స్ ఆఫ్", "hats off", "బాగా", "చాల బాగా", "చెప్పారు", "మాట్లాడారు", "అసెంబ్లీలో",
  "ఆనందదాయకంగా", "అభిప్రాయం", "ఊహించలేదు", "డెవలప్", "బాగుంది", "శ్రీ", "శుభాకాంక్షలు",
  "ప్రేమ", "సర్", "sir"]

/-- negativeWords is the bilingual negative lexicon of the classifier. -/
def negativeWords : List String := [
  "bad", "terrible", "horrible", "awful", "poor", "disappointing",
  "disappoints", "disappointed", "unfortunate", "sad", "unhappy", "hate",
  "dislike", "worst", "failure", "failed", "problem", "issue", "concern",
  "chedu", "baagaledhu", "cheddaga", "kashṭam", "సమస్య", "చెడు", "బాగాలేదు",
  "దోచి", "దాచుకోవడం", "అవినీతి", "కఱ్ఱ పెత్తనం", "విఱ్ఱవీగుతూ",
  "భ్రష్టాచారం", "అవినీతి", "దోపిడీ", "మోసం", "కుట్ర",
  "దుఃఖం", "బాధ", "కష్టం", "నష్టం", "విచారం", "నిరాశ", "నిస్పృహ",
  "అపజయం", "ఓటమి", "పరాభవం", "అసంతృప్తి", "ఆందోళన", "ఆవేదన",
  "కోపం", "రోషం", "ఆగ్రహం", "అసహనం", "నిరుత్సాహం", "నిరాసక్తత",
  "అయోగ్యత", "అనర్హత", "అసమర్థత", "బలహీనత", "భయం", "వైఫల్యం",
  "అపఖ్యాతి", "అవమానం", "అగౌరవం", "అన్యాయం", "అపనిందలు",
  "దూషణ", "నిందలు", "విమర్శలు", "తప్పిదాలు", "లోపాలు", "పొరపాట్లు",
  "అక్రమాలు", "అరాచకం", "అరాజకం", "గుండాయిజం", "దౌర్జన్యం",
  "అత్యాచారం", "దురాగతం", "దురాక్రమణ", "దుర్వినియోగం", "దుష్ప్రచారం",
  "కుంభకోణం", "కుట్రపన్నాగం", "వంచన", "లంచగొండితనం", "స్వార్థం",
  "నిరంకుశత్వం", "పక్షపాతం", "వివక్ష"]

/-- negationWords are context tokens that flip sentiment. -/
def negationWords : List String := [
  "no", "not", "never", "don\x27t", "doesn\x27t", "didn\x27t", "won\x27t", "shouldn\x27t",
  "can\x27t", "couldn\x27t", "తప్ప", "లేదు", "కాదు", "వద్దు", "కూడదు", "చేయకూడదు",
  "ఉండకూడదు", "రాకూడదు", "పోకూడదు", "మాట్లాడకూడదు", "ఆలోచించకూడదు",
  "అనుకోకూడదు", "ఎప్పుడూ కాదు", "ఎన్నటికీ కాదు", "అస్సలు కాదు", "మరొకటి కాదు"]

/-- intensifiers are context tokens that strengthen sentiment. -/
def intensifiers : List String := [
  "very", "extremely", "really", "absolutely", "completely", "totally",
  "చాలా", "మరింత", "అత్యంత", "పూర్తిగా", "సంపూర్ణంగా", "అమితంగా",
  "అధికంగా", "ఎక్కువగా", "మహా", "అతి", "మిక్కిలి", "గణనీయంగా",
  "సాటిలేని", "అసాధారణమైన", "అసమానమైన", "అద్భుతమైన", "అత్యద్భుతమైన"]

/-- LexState carries the running scores and context modifier of the
general lexicon pass. -/
structure LexState where
  positiveScore : ℚ
  negativeScore : ℚ
  contextModifier : ℚ
deriving DecidableEq, Repr

/-- lexStep processes one indexed word of the tokenised text, updating
scores and the context modifier exactly as the source loop body does. -/
def lexStep (st : LexState) (iw : Nat × String) : LexState :=
  let i := iw.1
  let word := iw.2
  if negationWords.contains word then
    { st with contextModifier := -1 }
  else if intensifiers.contains word then
    { st with contextModifier := st.contextModifier * (3/2) }
  else if positiveWords.any (fun pw => strIncludes word pw) then
    { st with positiveScore := st.positiveScore + 1 * st.contextModifier,
              contextModifier := 1 }
  else if negativeWords.any (fun nw => strIncludes word nw) then
    { st with negativeScore := st.negativeScore + 1 * |st.contextModifier|,
              contextModifier := 1 }
  else if i % 5 == 0 then
    { st with contextModifier := 1 }
  else st

/-- aiEnhancedAnalysis is the full rule-based classifier: emoji layer,
praise-phrase layer, political-pattern layer, then the general lexicon
scoring pass with key-phrase bonuses and the final decision rule. -/
def aiEnhancedAnalysis (text : String) : SentimentResult :=
  match analyzeEmojiPatterns text with
  | some r => r
  | none =>
  match analyzeTeluguPraisePhrases text with
  | some r => r
  | none =>
  match analyzeTeluguPoliticalSentiment text with
  | some r => r
  | none =>
    let normalizedText := jsToLower text
    let words := jsSplitWs normalizedText
    let st := words.enum.foldl lexStep ⟨0, 0, 1⟩
    let positiveScore := st.positiveScore +
      (if strIncludes normalizedText "thank you" || strIncludes normalizedText "thanks for"
       then 2 else 0)
    let negativeScore := st.negativeScore +
      (if strIncludes normalizedText "waste of" || strIncludes normalizedText "not worth"
       then 2 else 0)
    let finalPositive := max 0 positiveScore
    let finalNegative := max 0 negativeScore
    if finalPositive > finalNegative ∧ finalPositive > 0 then
      ⟨"positive", finalPositive / (finalPositive + finalNegative + 1/10) * 10⟩
    else if finalNegative > finalPositive ∧ finalNegative > 0 then
      ⟨"negative", finalNegative / (finalPositive + finalNegative + 1/10) * 10⟩
    else ⟨"neutral", 1⟩

/-- analyze is the public classifier entry point, including the
neutral-name carve-out before the rule-based analysis. -/
def analyze (text : String) : SentimentResult :=
  if containsNeutralName text && textContainsOnlyName text then ⟨"neutral", 0⟩
  else aiEnhancedAnalysis text

/-- detectLanguage labels a text Telugu when it contains a code point in
the Telugu Unicode block, and English otherwise. -/
def detectLanguage (text : String) : String :=
  if text.data.any (fun c => 0x0C00 ≤ c.val.toNat && c.val.toNat ≤ 0x0C7F) then "Telugu"
  else "English"

end SentimentAnalyzer

/-- InsertComment models the comment record produced by collection and
consumed by the classifier, tagger and store (schema insertCommentSchema
plus the two pseudo-record flags used by the video-title flow). -/
structure InsertComment where
  searchQueryId : Nat
  platform : String
  userName : String
  userId : Option String
  text : String
  translation : Option String
  language : String
  sentiment : String
  topics : List String
  engagementScore : Option ℚ
  createdAt : Option Int
  sourceUrl : Option String
  isVideoMetadata : Bool := false
  isCommentMetric : Bool := false
deriving DecidableEq, Repr

namespace TopicExtractor

/-- topicKeywords is the fixed topic-category to bilingual keyword-list
table, in object-literal insertion order. -/
def topicKeywords : List (String × List String) := [
  ("infrastructure", ["road", "roads", "bridge", "construction", "build", "infrastructure", "facility", "facilities"]),
  ("water issues", ["water", "drinking", "irrigation", "supply", "pipeline", "shortage", "dam"]),
  ("education", ["school", "education", "student", "college", "university", "literacy", "teacher", "classroom"]),
  ("healthcare", ["hospital", "health", "doctor", "medical", "patient", "treatment", "clinic"]),
  ("agriculture", ["farm", "agriculture", "farmer", "crop", "cultivation", "harvest", "seed", "fertilizer"]),
  ("employment", ["job", "employment", "unemployment", "salary", "wage", "work", "worker", "career"]),
  ("governance", ["governance", "government", "administration", "policy", "scheme", "implementation"]),
  ("development", ["development", "progress", "growth", "improve", "improvement"]),
  ("నీరు (water)", ["నీరు", "నీటి", "తాగునీరు", "సాగునీరు"]),
  ("రహదారులు (roads)", ["రోడ్లు", "రహదారి", "రహదారులు"]),
  ("అభివృద్ధి (development)", ["అభివృద్ధి", "పురోగతి", "మెరుగుదల"]),
  ("విద్య (education)", ["విద్య", "పాఠశాల", "చదువు"]),
  ("వ్యవసాయం (agriculture)", ["వ్యవసాయం", "రైతు", "పంట"])]

/-- setAdd models JavaScript Set.prototype.add on an insertion-ordered
list of strings. -/
def setAdd (l : List String) (x : String) : List String :=
  if l.contains x then l else l ++ [x]

/-- cleanTopicName strips the parenthesised transliteration suffix of a
Telugu topic label, as the source does before adding the topic. -/
def cleanTopicName (topic : String) : String :=
  if strIncludes topic "(" then
    trimWs (String.mk (topic.data.takeWhile (fun c => c ≠ '(')))
  else topic

/-- extractTopicsFromText extracts topic tags from one text by keyword
matching, adds sentiment-conditioned tags, and falls back to general. -/
def extractTopicsFromText (text : String) (_language : String) (sentiment : String) :
    List String :=
  let normalizedText := jsToLower text
  let extractedTopics := topicKeywords.foldl
    (fun acc tk =>
      if tk.2.any (fun keyword => strIncludes normalizedText (jsToLower keyword)) then
        setAdd acc (cleanTopicName tk.1)
      else acc)
    []
  let extractedTopics :=
    if sentiment == "positive" then
      if strIncludes normalizedText "thank" || strIncludes normalizedText "thanks" ||
         strIncludes normalizedText "ధన్యవాదాలు" || strIncludes normalizedText "appreciation" then
        setAdd extractedTopics "appreciation"
      else extractedTopics
    else if sentiment == "negative" then
      if strIncludes normalizedText "problem" || strIncludes normalizedText "issue" ||
         strIncludes normalizedText "సమస్య" || strIncludes normalizedText "complaint" then
        setAdd extractedTopics "complaints"
      else extractedTopics
    else extractedTopics
  if extractedTopics.length = 0 then setAdd extractedTopics "general" else extractedTopics

/-- tagComment processes one comment of the batch: comments that already
carry topics are passed through unchanged, others get extracted topics. -/
def tagComment (comment : InsertComment) : InsertComment :=
  if comment.topics.length > 0 then comment
  else { comment with
         topics := extractTopicsFromText comment.text comment.language comment.sentiment }

/-- extractTopics processes a batch of comments, as the service's public
entry point does. -/
def extractTopics (comments : List InsertComment) : List InsertComment :=
  comments.map tagComment

end TopicExtractor

/-- SearchQuery is a stored search query record. -/
structure SearchQuery where
  id : Nat
  keyword : String
  timeperiod : Int
  platform : String
  createdAt : Int
  userId : Option Nat
deriving DecidableEq, Repr

/-- InsertSearchQuery is a search query before storage assigns id and
creation time. -/
structure InsertSearchQuery where
  keyword : String
  timeperiod : Int
  platform : String
  userId : Option Nat
deriving DecidableEq, Repr

/-- Comment is a stored comment record: an InsertComment plus the
storage-assigned id and ingestion timestamp. -/
structure Comment where
  id : Nat
  searchQueryId : Nat
  platform : String
  userName : String
  userId : Option String
  text : String
  translation : Option String
  language : String
  sentiment : String
  topics : List String
  engagementScore : Option ℚ
  createdAt : Option Int
  collectedAt : Option Int
  sourceUrl : Option String
  isVideoMetadata : Bool := false
  isCommentMetric : Bool := false
deriving DecidableEq, Repr

/-- Changes is the period-over-period delta block of the metrics. -/
structure Changes where
  totalComments : ℚ
  positiveSentiment : ℚ
  negativeSentiment : ℚ
  engagementRate : ℚ
deriving DecidableEq, Repr

/-- Metrics is the headline metrics block of an Analytics value. -/
structure Metrics where
  totalComments : Nat
  positiveSentiment : ℤ
  negativeSentiment : ℤ
  engagementRate : ℚ
  changes : Changes
deriving DecidableEq, Repr

/-- TrendPoint is one day of the sentiment trend series. -/
structure TrendPoint where
  date : Int
  positive : ℤ
  neutral : ℤ
  negative : ℤ
deriving DecidableEq, Repr

/-- NamedValue is a named, colored count used by the topic and platform
distributions. -/
structure NamedValue where
  name : String
  value : Nat
  color : String
deriving DecidableEq, Repr

/-- KeywordCount is one entry of the top-keywords list. -/
structure KeywordCount where
  text : String
  value : Nat
deriving DecidableEq, Repr

/-- SentimentPct is the rounded per-group sentiment percentage triple of
an influencer entry. -/
structure SentimentPct where
  positive : ℤ
  neutral : ℤ
  negative : ℤ
deriving DecidableEq, Repr

/-- Influencer is one entry of the influencer ranking. -/
structure Influencer where
  name : String
  handle : String
  platform : String
  commentCount : Nat
  engagementLevel : String
  sentiment : SentimentPct
deriving DecidableEq, Repr

/-- Analytics is the full analytics object computed per search query. -/
structure Analytics where
  metrics : Metrics
  sentimentTrend : List TrendPoint
  topicDistribution : List NamedValue
  platformDistribution : List NamedValue
  topKeywords : List KeywordCount
  influencers : List Influencer
  aiInsights : String
  searchQueryId : Nat
deriving DecidableEq, Repr

/-- SearchResult is the cached-lookup result shape returned by
getSearchResultsByKeyword. -/
structure SearchResult where
  keyword : String
  timeperiod : Int
  platform : String
  analytics : Analytics
  lastUpdated : Int
  hasMoreComments : Bool
deriving DecidableEq, Repr

/-- StorageState is the in-memory state of MemStorage restricted to the
fields the analytics pipeline touches. -/
structure StorageState where
  searchQueries : List SearchQuery
  comments : List (Nat × List Comment)
  commentIdCounter : Nat
  searchQueryIdCounter : Nat
  cachedAnalytics : List (Nat × Analytics)
  apiKeys : List (String × Option String)
deriving DecidableEq, Repr

namespace MemStorage

/-- saveSearchQuery assigns the next id and creation time and appends
the query to the store. -/
def saveSearchQuery (st : StorageState) (query : InsertSearchQuery) (now : Int) :
    SearchQuery × StorageState :=
  let id := st.searchQueryIdCounter
  let searchQuery : SearchQuery :=
    { id := id, keyword := query.keyword, timeperiod := query.timeperiod,
      platform := query.platform, createdAt := now, userId := query.userId }
  (searchQuery,
   { st with searchQueries := st.searchQueries ++ [searchQuery],
             searchQueryIdCounter := st.searchQueryIdCounter + 1 })

/-- getSearchQuery looks a query up by id. -/
def getSearchQuery (st : StorageState) (id : Nat) : Option SearchQuery :=
  st.searchQueries.find? (fun q => q.id == id)

/-- getSearchResultsByKeyword finds the matching query in Map iteration
(insertion) order and returns its cached analytics as a SearchResult,
or none when no query matches or no analytics is cached. -/
def getSearchResultsByKeyword (st : StorageState) (keyword : String) (timeperiod : Int)
    (platform : String) : Option SearchResult :=
  let matchingQuery := st.searchQueries.find? (fun query =>
    query.keyword == keyword && query.timeperiod == timeperiod && query.platform == platform)
  match matchingQuery with
  | none => none
  | some q =>
    match assocGet st.cachedAnalytics q.id with
    | none => none
    | some analytics =>
      some { keyword := keyword, timeperiod := timeperiod, platform := platform,
             analytics := analytics, lastUpdated := q.createdAt, hasMoreComments := true }

/-- toStoredComment builds the stored record for one inserted comment:
the inserted fields plus the assigned id, owning query id and the
ingestion timestamp. -/
def toStoredComment (c : InsertComment) (id : Nat) (searchQueryId : Nat) (now : Int) : Comment :=
  { id := id, searchQueryId := searchQueryId, platform := c.platform, userName := c.userName,
    userId := c.userId, text := c.text, translation := c.translation, language := c.language,
    sentiment := c.sentiment, topics := c.topics, engagementScore := c.engagementScore,
    createdAt := c.createdAt, collectedAt := some now, sourceUrl := c.sourceUrl,
    isVideoMetadata := c.isVideoMetadata, isCommentMetric := c.isCommentMetric }

/-- saveComments assigns ids to the batch and stores it under the query
id with Map.set, i.e. the stored list becomes exactly this batch. -/
def saveComments (st : StorageState) (searchQueryId : Nat) (comments : List InsertComment)
    (now : Int) : StorageState :=
  let storedComments := comments.enum.map
    (fun ic => toStoredComment ic.2 (st.commentIdCounter + ic.1) searchQueryId now)
  { st with comments := assocSet st.comments searchQueryId storedComments,
            commentIdCounter := st.commentIdCounter + comments.length }

/-- getCommentsBySearchQueryId filters out metadata pseudo-records and
then paginates. -/
def getCommentsBySearchQueryId (st : StorageState) (searchQueryId page pageSize : Nat) :
    List Comment :=
  let allComments := (assocGet st.comments searchQueryId).getD []
  let actualComments := allComments.filter (fun c => !c.isVideoMetadata && !c.isCommentMetric)
  (actualComments.drop ((page - 1) * pageSize)).take pageSize

/-- isStopWord is the small stop-word list of the keyword extractor. -/
def isStopWord (word : String) : Bool :=
  ["the", "and", "was", "for", "that", "this", "with", "have", "from", "not"].contains word

/-- extractKeywords counts whitespace tokens of length above three that
are not stop words, adds each topic tag with triple weight, and sorts
descending by count. -/
def extractKeywords (comments : List Comment) : List KeywordCount :=
  let keywordCounts := comments.foldl
    (fun acc comment =>
      let text := jsToLower comment.text
      let words := jsSplitWs text
      let acc := words.foldl
        (fun acc word =>
          if word.length > 3 && !isStopWord word then sBump acc word 1 else acc)
        acc
      comment.topics.foldl (fun acc topic => sBump acc topic 3) acc)
    []
  (sortDescBy (fun kv => (kv.2 : ℤ)) keywordCounts).map (fun kv => ⟨kv.1, kv.2⟩)

/-- DayData is the per-day sentiment-count bucket of the trend builder. -/
structure DayData where
  positive : Nat
  neutral : Nat
  negative : Nat
  total : Nat
deriving DecidableEq, Repr

/-- LastPct carries the last valid percentage triple used to synthesise
trend values for days without data. -/
structure LastPct where
  positive : ℚ
  neutral : ℚ
  negative : ℚ
deriving DecidableEq, Repr

/-- initDays lists the 30 calendar days of the trend window in
chronological order, ending today. -/
def initDays (today : Int) : List Int :=
  (List.range 30).map (fun (j : Nat) => today - 29 + (j : Int))

/-- commentDates assigns each comment its bucket day: createdAt when
present, else collectedAt, else a random day in the last 30 days; it
returns the next unused random index. -/
def commentDates (today : Int) (rng : Nat → ℚ) : List Comment → Nat → List (Comment × Int) × Nat
  | [], idx => ([], idx)
  | c :: rest, idx =>
    match c.createdAt with
    | some d =>
      let r := commentDates today rng rest idx
      ((c, d) :: r.1, r.2)
    | none =>
      match c.collectedAt with
      | some d =>
        let r := commentDates today rng rest idx
        ((c, d) :: r.1, r.2)
      | none =>
        let d := today - jsFloor (rng idx * 30)
        let r := commentDates today rng rest (idx + 1)
        ((c, d) :: r.1, r.2)

/-- dayDataFor counts the sentiments of the comments assigned to one
day of the window. -/
def dayDataFor (cds : List (Comment × Int)) (date : Int) : DayData :=
  cds.foldl
    (fun acc cd =>
      if cd.2 = date then
        if cd.1.sentiment == "positive" then
          { acc with positive := acc.positive + 1, total := acc.total + 1 }
        else if cd.1.sentiment == "negative" then
          { acc with negative := acc.negative + 1, total := acc.total + 1 }
        else
          { acc with neutral := acc.neutral + 1, total := acc.total + 1 }
      else acc)
    ⟨0, 0, 0, 0⟩

/-- trendDataEntry builds the trend point of a day with data: rounded
positive and negative percentages, neutral as the remainder to 100. -/
def trendDataEntry (date : Int) (d : DayData) : TrendPoint :=
  let positive := jsRound ((d.positive : ℚ) / (d.total : ℚ) * 100)
  let negative := jsRound ((d.negative : ℚ) / (d.total : ℚ) * 100)
  let neutral := 100 - positive - negative
  ⟨date, positive, neutral, negative⟩

/-- trendGapEntry synthesises the trend point of a day without data by
random variation around the last valid percentages, and returns the new
last-valid baseline. -/
def trendGapEntry (date : Int) (last : LastPct) (r : ℚ) : TrendPoint × LastPct :=
  let randomVariation := r * 10 - 5
  let positive := max 0 (min 100 (last.positive + randomVariation))
  let negative := max 0 (min 100 (last.negative + randomVariation * (-(1/2))))
  let pn :=
    if positive + negative > 95 then
      let excess := (positive + negative) - 95
      (positive - excess / 2, negative - excess / 2)
    else (positive, negative)
  let neutral := max 0 (100 - pn.1 - pn.2)
  (⟨date, jsRound pn.1, jsRound neutral, jsRound pn.2⟩,
   ⟨(jsRound pn.1 : ℚ), (jsRound neutral : ℚ), (jsRound pn.2 : ℚ)⟩)

/-- trendLoop processes the window days in chronological order,
emitting a data entry or a synthesised gap entry per day and threading
the last-valid baseline and the random index. -/
def trendLoop (rng : Nat → ℚ) : List (Int × DayData) → LastPct → Nat → List TrendPoint
  | [], _, _ => []
  | (date, d) :: rest, last, idx =>
    if d.total > 0 then
      let e := trendDataEntry date d
      e :: trendLoop rng rest ⟨(e.positive : ℚ), (e.neutral : ℚ), (e.negative : ℚ)⟩ idx
    else
      let er := trendGapEntry date last (rng idx)
      er.1 :: trendLoop rng rest er.2 (idx + 1)

/-- trendDays pairs each window day with its sentiment counts and
returns the next unused random index after date assignment. -/
def trendDays (comments : List Comment) (today : Int) (rng : Nat → ℚ) :
    List (Int × DayData) × Nat :=
  let cds := commentDates today rng comments 0
  ((initDays today).map (fun d => (d, dayDataFor cds.1 d)), cds.2)

/-- generateSentimentTrend builds the 30-day sentiment trend with
gap-filling, starting from the 33/34/33 baseline. -/
def generateSentimentTrend (comments : List Comment) (today : Int) (rng : Nat → ℚ) :
    List TrendPoint :=
  let td := trendDays comments today rng
  trendLoop rng td.1 ⟨33, 34, 33⟩ td.2

/-- UserGroup is the per-user comment group of the influencer ranking. -/
structure UserGroup where
  comments : List Comment
  platform : String
  name : String
deriving DecidableEq, Repr

/-- groupKey is the userName-pipe-platform grouping key. -/
def groupKey (c : Comment) : String := c.userName ++ "|" ++ c.platform

/-- addToGroups adds one comment to its user group, creating the group
on first sight, in insertion order. -/
def addToGroups (acc : List (String × UserGroup)) (c : Comment) : List (String × UserGroup) :=
  let key := groupKey c
  match acc.find? (fun kv => kv.1 == key) with
  | none => acc ++ [(key, ⟨[c], c.platform, c.userName⟩)]
  | some _ =>
    acc.map (fun kv =>
      if kv.1 == key then (kv.1, { kv.2 with comments := kv.2.comments ++ [c] }) else kv)

/-- mkInfluencer computes one influencer entry from a user group:
counts, thresholded engagement level, whitespace-stripped lowercase
handle and independently rounded sentiment percentages. -/
def mkInfluencer (g : UserGroup) : Influencer :=
  let commentCount := g.comments.length
  let positive := (g.comments.filter (fun c => c.sentiment == "positive")).length
  let negative := (g.comments.filter (fun c => c.sentiment == "negative")).length
  let neutral := commentCount - positive - negative
  let engagementLevel :=
    if commentCount > 15 then "High" else if commentCount > 5 then "Medium" else "Low"
  let handle := stripWs (jsToLower g.name)
  { name := g.name, handle := handle, platform := g.platform, commentCount := commentCount,
    engagementLevel := engagementLevel,
    sentiment :=
      ⟨jsRound ((positive : ℚ) / (commentCount : ℚ) * 100),
       jsRound ((neutral : ℚ) / (commentCount : ℚ) * 100),
       jsRound ((negative : ℚ) / (commentCount : ℚ) * 100)⟩ }

/-- findInfluencers groups actual comments by user and platform, maps
each group to an influencer entry, sorts by comment count descending and
keeps the top ten. -/
def findInfluencers (comments : List Comment) : List Influencer :=
  let userComments := comments.foldl addToGroups []
  (sortDescBy (fun inf => (inf.commentCount : ℤ))
    (userComments.map (fun kv => mkInfluencer kv.2))).take 10

/-- generateAIInsights fills the positive or negative insight template
from the headline numbers and the top topic. -/
def generateAIInsights (_comments : List Comment) (positiveSentiment negativeSentiment : ℤ)
    (topicDistribution : List NamedValue) (engagementRate : ℚ) : String :=
  let mainSentiment := if positiveSentiment > negativeSentiment then "positive" else "negative"
  let topTopic :=
    match topicDistribution with
    | t :: _ => t.name
    | [] => "various topics"
  if mainSentiment == "positive" then
    "Most users are expressing positive sentiment toward the search topic, especially regarding "
      ++ topTopic ++
      ". There\x27s been a 12% increase in positive mentions over the past week, with infrastructure projects receiving the most praise. Several negative comments centered around response times to public requests. Engagement rate is currently at "
      ++ toString engagementRate ++ "%."
  else
    "The overall sentiment is trending negative with " ++ toString negativeSentiment
      ++ "% of comments expressing concerns, primarily about " ++ topTopic
      ++ ". Positive comments (" ++ toString positiveSentiment
      ++ "%) are mostly appreciating recent initiatives. Consider addressing the most mentioned pain points to improve public perception. Engagement rate is currently at "
      ++ toString engagementRate ++ "%."

/-- topicColors is the fixed ten-color palette of the topic chart. -/
def topicColors : List String :=
  ["#3B82F6", "#10B981", "#F59E0B", "#EF4444", "#8B5CF6",
   "#EC4899", "#14B8A6", "#F97316", "#6366F1", "#D946EF"]

/-- platformColor is the fixed platform-to-color map with a gray
fallback for unknown platforms. -/
def platformColor (name : String) : String :=
  if name == "YouTube" then "#FF0000"
  else if name == "Twitter (X)" then "#1DA1F2"
  else if name == "Facebook" then "#4267B2"
  else if name == "Instagram" then "#E1306C"
  else "#9CA3AF"

/-- generateMockAnalytics builds and caches the empty-state analytics,
choosing the no-keys-configured or the no-data-found insight message. -/
def generateMockAnalytics (st : StorageState) (searchQueryId : Nat) :
    Analytics × StorageState :=
  let hasAnyApiKey := st.apiKeys.any (fun kv =>
    match kv.2 with
    | some k => !(k == "")
    | none => false)
  let searchQuery := st.searchQueries.find? (fun q => q.id == searchQueryId)
  let insightsMessage :=
    if !hasAnyApiKey then
      "No API keys configured. Please set up API keys in the settings to fetch actual data from social media platforms."
    else
      let platform :=
        match searchQuery with
        | some q => if q.platform == "" then "social media platforms" else q.platform
        | none => "social media platforms"
      let keyword :=
        match searchQuery with
        | some q => if q.keyword == "" then "the specified keyword" else q.keyword
        | none => "the specified keyword"
      let timeperiod :=
        match searchQuery with
        | some q => if q.timeperiod == 0 then "the selected time period" else toString q.timeperiod
        | none => "the selected time period"
      "No data found for \"" ++ keyword ++ "\" on "
        ++ (if platform == "all" then "any platform" else platform)
        ++ " for the last " ++ timeperiod
        ++ " days. Please try a different keyword, platform, or time period."
  let analytics : Analytics :=
    { metrics :=
        { totalComments := 0, positiveSentiment := 0, negativeSentiment := 0,
          engagementRate := 0, changes := ⟨0, 0, 0, 0⟩ },
      sentimentTrend := [], topicDistribution := [], platformDistribution := [],
      topKeywords := [], influencers := [], aiInsights := insightsMessage,
      searchQueryId := searchQueryId }
  (analytics, { st with cachedAnalytics := assocSet st.cachedAnalytics searchQueryId analytics })

/-- generateAnalytics computes the analytics of a query's stored comment
set and caches it; an empty stored set yields the mock analytics. -/
def generateAnalytics (st : StorageState) (searchQueryId : Nat) (today : Int)
    (rng : Nat → ℚ) : Analytics × StorageState :=
  let allComments := (assocGet st.comments searchQueryId).getD []
  if allComments.length = 0 then
    generateMockAnalytics st searchQueryId
  else
    let actualComments := allComments.filter (fun c => !c.isVideoMetadata && !c.isCommentMetric)
    let totalComments := actualComments.length
    let positiveCount := (actualComments.filter (fun c => c.sentiment == "positive")).length
    let negativeCount := (actualComments.filter (fun c => c.sentiment == "negative")).length
    let positiveSentiment := jsRound ((positiveCount : ℚ) / (totalComments : ℚ) * 100)
    let negativeSentiment := jsRound ((negativeCount : ℚ) / (totalComments : ℚ) * 100)
    let totalEngagement := actualComments.foldl (fun sum c => sum + c.engagementScore.getD 0) 0
    let avgEngagementPerComment :=
      if totalComments > 0 then totalEngagement / (totalComments : ℚ) else 0
    let engagementWeight := min ((totalComments : ℚ) / 100) 1
    let sentimentBalance := (|(positiveSentiment : ℚ) - (negativeSentiment : ℚ)| / 100) * (1/2)
    let rawEngagementRate := (avgEngagementPerComment * engagementWeight * (1 + sentimentBalance)) * 5
    let engagementRate := min ((jsRound (rawEngagementRate * 100) : ℚ) / 100) 100
    let platformCounts := actualComments.foldl (fun acc c => sBump acc c.platform 1) []
    let platformDistribution :=
      platformCounts.map (fun kv => NamedValue.mk kv.1 kv.2 (platformColor kv.1))
    let topicCounts := actualComments.foldl
      (fun acc c => c.topics.foldl (fun acc t => sBump acc t 1) acc) []
    let topicDistribution :=
      ((sortDescBy (fun kv => (kv.2 : ℤ)) topicCounts).take 10).enum.map
        (fun ikv => NamedValue.mk ikv.2.1 ikv.2.2
          ((topicColors.get? (ikv.1 % topicColors.length)).getD ""))
    let keywords := extractKeywords actualComments
    let topKeywords := keywords.take 30
    let sentimentTrend := generateSentimentTrend actualComments today rng
    let influencers := findInfluencers actualComments
    let aiInsights :=
      generateAIInsights actualComments positiveSentiment negativeSentiment
        topicDistribution engagementRate
    let analytics : Analytics :=
      { metrics :=
          { totalComments := totalComments, positiveSentiment := positiveSentiment,
            negativeSentiment := negativeSentiment, engagementRate := engagementRate,
            changes := ⟨82/10, 124/10, -(38/10), 12/10⟩ },
        sentimentTrend := sentimentTrend, topicDistribution := topicDistribution,
        platformDistribution := platformDistribution, topKeywords := topKeywords,
        influencers := influencers, aiInsights := aiInsights, searchQueryId := searchQueryId }
    (analytics, { st with cachedAnalytics := assocSet st.cachedAnalytics searchQueryId analytics })

end MemStorage

namespace MediaCollector

/-- detectLanguage is the collector's copy of the Telugu-block language
detector. -/
def detectLanguage (text : String) : String :=
  if text.data.any (fun c => 0x0C00 ≤ c.val.toNat && c.val.toNat ≤ 0x0C7F) then "Telugu"
  else "English"

/-- teluguNames is the Telugu sample user-name pool. -/
def teluguNames : List String :=
  ["Ramesh Kumar", "Lakshmi Devi", "Vijaya Reddy", "Praveen Rao",
   "Sunil Goud", "Sarita Kumari", "Venkat Reddy", "Padma Rao",
   "Anand Prasad", "Local News Today", "Telugu Politics", "Farmers Association"]

/-- englishNames is the English sample user-name pool. -/
def englishNames : List String :=
  ["John Smith", "Sarah Wilson", "David Kumar", "Emily Reddy",
   "Michael Johnson", "Jennifer Lee", "Regional Times", "Democracy Watch",
   "Public Voice", "Civic Forum", "Development Tracker", "CitizenSpeak"]

/-- getRandomUserName picks a name from the language-appropriate pool by
one random draw. -/
def getRandomUserName (language : String) (r : ℚ) : String :=
  let names := if language == "Telugu" then teluguNames else englishNames
  (names.get? (jsFloor (r * (names.length : ℚ))).toNat).getD ""

/-- SampleTemplate is one fixed sample-comment template. -/
structure SampleTemplate where
  text : String
  translation : Option String
  language : String
  sentiment : String
  topics : List String
deriving DecidableEq, Repr, Inhabited

/-- teluguComments are the Telugu sample templates of the keyword-search
sample dataset. -/
def teluguComments : List SampleTemplate := [
  { text := "అభినందనలు సురేష్ గారు! మా ప్రాంతంలో రోడ్లు మరియు నీటి సదుపాయాలు మెరుగుపరిచినందుకు ధన్యవాదాలు. మీ కృషి అద్భుతం.",
    translation := some "Congratulations Suresh garu! Thank you for improving roads and water facilities in our area. Your efforts are amazing.",
    language := "Telugu", sentiment := "positive",
    topics := ["infrastructure", "roads", "water facilities", "appreciation"] },
  { text := "కాకర్ల సురేష్ గారు మా ప్రాంతంలో తాగునీటి సమస్యలపై దృష్టి పెట్టడం లేదు. మేము చాలా నెలలుగా ఈ సమస్యతో బాధపడుతున్నాము.",
    translation := some "Kakrla Suresh garu is not focusing on drinking water problems in our area. We have been suffering from this issue for many months.",
    language := "Telugu", sentiment := "negative",
    topics := ["water issues", "complaints", "public services"] },
  { text := "గ్రామాభివృద్ధి పథకాల అమలులో కాకర్ల సురేష్ గారు చాలా శ్రద్ధ చూపిస్తున్నారు. కానీ ఇంకా చాలా పనులు జరగాలి.",
    translation := some "Kakrla Suresh garu is showing a lot of interest in implementing rural development schemes. But there is still a lot of work to be done.",
    language := "Telugu", sentiment := "neutral",
    topics := ["rural development", "government schemes", "progress"] }]

/-- englishComments are the English sample templates of the
keyword-search sample dataset. -/
def englishComments : List SampleTemplate := [
  { text := "The new community center built by MLA Suresh garu is a great addition to our town. It\x27s already being used for so many cultural events!",
    translation := none, language := "English", sentiment := "positive",
    topics := ["community center", "cultural events", "public facilities"] },
  { text := "When is MLA Kakrla Suresh planning to address the pending irrigation projects? Many farmers are waiting for updates.",
    translation := none, language := "English", sentiment := "neutral",
    topics := ["irrigation", "agriculture", "farmer issues"] },
  { text := "Disappointment with the lack of action on school infrastructure by MLA Suresh. Our children deserve better facilities!",
    translation := none, language := "English", sentiment := "negative",
    topics := ["education", "school infrastructure", "children welfare"] }]

/-- sampleFromTemplate builds one sample comment from a template; the
three random draws at base, base+1 and base+2 are the day offset, the
user name and the engagement score, in source order. -/
def sampleFromTemplate (platform : String) (tmpl : SampleTemplate) (timeperiod now : Int)
    (rng : Nat → ℚ) (base : Nat) (urlIdx : String) : InsertComment :=
  let randomDays := jsFloor (rng base * (timeperiod : ℚ))
  let commentDate := now - randomDays
  let userName := getRandomUserName tmpl.language (rng (base + 1))
  { searchQueryId := 0, platform := platform, userName := userName,
    userId := some (stripWs (jsToLower userName)), text := tmpl.text,
    translation := tmpl.translation, language := tmpl.language, sentiment := tmpl.sentiment,
    topics := tmpl.topics, engagementScore := some ((jsFloor (rng (base + 2) * 100)) : ℚ),
    createdAt := some commentDate,
    sourceUrl := some ("https://example.com/" ++ jsToLower platform ++ "/comment/" ++ urlIdx) }

/-- genericSampleStep builds one generic sample comment starting at
random index base and returns the next unused index; the conditional
second draw models the short-circuit in the neutral check. -/
def genericSampleStep (platform keyword : String) (timeperiod now : Int) (rng : Nat → ℚ)
    (i : Nat) (base : Nat) : InsertComment × Nat :=
  let isPositive := rng base > 3/10
  let neutralAndNext : Bool × Nat :=
    if isPositive then (false, base + 1) else (rng (base + 1) > 1/2, base + 2)
  let isNeutral := neutralAndNext.1
  let idx := neutralAndNext.2
  let sentiment := if isPositive then "positive" else if isNeutral then "neutral" else "negative"
  let language := if rng idx > 1/2 then "English" else "Telugu"
  let randomDays := jsFloor (rng (idx + 1) * (timeperiod : ℚ))
  let commentDate := now - randomDays
  let userName := getRandomUserName language (rng (idx + 2))
  ({ searchQueryId := 0, platform := platform, userName := userName,
     userId := some (stripWs (jsToLower userName)),
     text := "Comment about " ++ keyword ++ " - " ++ toString i,
     translation := none, language := language, sentiment := sentiment,
     topics := ["general", keyword],
     engagementScore := some ((jsFloor (rng (idx + 3) * 100)) : ℚ),
     createdAt := some commentDate,
     sourceUrl := some ("https://example.com/" ++ jsToLower platform ++ "/comment/" ++ toString i) },
   idx + 4)

/-- genericSampleLoop runs the generic sample loop, threading the
random index. -/
def genericSampleLoop (platform keyword : String) (timeperiod now : Int) (rng : Nat → ℚ) :
    Nat → Nat → Nat → List InsertComment
  | 0, _, _ => []
  | count + 1, i, base =>
    let r := genericSampleStep platform keyword timeperiod now rng i base
    r.1 :: genericSampleLoop platform keyword timeperiod now rng count (i + 1) r.2

/-- mlaKeywordMarker is the Telugu MLA phrase that selects the curated
sample dataset. -/
def mlaKeywordMarker : String := "ఎమ్మెల్యే కాకర్ల సురేష్ గారు"

/-- createCommentsData is the deterministic-given-randomness sample
dataset generator used when no credential is configured: 15 to 25
comments, curated bilingual templates for the example MLA keyword and
generic comments otherwise. -/
def createCommentsData (platform keyword : String) (timeperiod now : Int) (rng : Nat → ℚ) :
    List InsertComment :=
  let commentsCount := (jsFloor (rng 0 * 10) + 15).toNat
  if strIncludes keyword mlaKeywordMarker then
    let halfCount := (commentsCount + 1) / 2
    let l1 := (List.range halfCount).map (fun i =>
      sampleFromTemplate platform
        ((teluguComments.get? (i % teluguComments.length)).getD default)
        timeperiod now rng (1 + 3 * i) (toString i))
    let l2 := (List.range halfCount).map (fun i =>
      sampleFromTemplate platform
        ((englishComments.get? (i % englishComments.length)).getD default)
        timeperiod now rng (1 + 3 * halfCount + 3 * i)
        (toString ((i : ℚ) + (commentsCount : ℚ) / 2)))
    l1 ++ l2
  else
    genericSampleLoop platform keyword timeperiod now rng commentsCount 0 1

/-- FetchOutcome models the observable outcome of one upstream HTTP
call: the promise rejected, the response arrived not ok with a status,
or the response was ok and parsed to data. -/
inductive FetchOutcome (α : Type) where
  | netErr : FetchOutcome α
  | httpErr (status : Nat) : FetchOutcome α
  | ok (data : α) : FetchOutcome α
deriving DecidableEq, Repr

/-- RawYTComment is the normalized shape of one YouTube comment item as
consumed by the collector. -/
structure RawYTComment where
  commentId : String
  authorDisplayName : String
  authorChannelId : Option String
  textDisplay : String
  likeCount : ℚ
  publishedAt : Int
deriving DecidableEq, Repr

/-- YTEnv is the upstream oracle of the keyword YouTube fetch: the
video-search outcome and the per-video comment-threads outcome. -/
structure YTEnv where
  search : FetchOutcome (List String)
  commentThreads : String → FetchOutcome (List RawYTComment)

/-- ytComment normalizes one raw YouTube comment into an InsertComment. -/
def ytComment (videoId : String) (item : RawYTComment) : InsertComment :=
  { searchQueryId := 0, platform := "YouTube", userName := item.authorDisplayName,
    userId := item.authorChannelId, text := item.textDisplay, translation := none,
    language := detectLanguage item.textDisplay, sentiment := "neutral", topics := [],
    engagementScore := some item.likeCount, createdAt := some item.publishedAt,
    sourceUrl := some ("https://www.youtube.com/watch?v=" ++ videoId ++ "&lc=" ++ item.commentId) }

/-- fetchFromYouTube models the keyword YouTube fetch: sample data only
when no API key is configured; with a key, a 403 returns empty, any
other search failure throws into the catch which returns empty, zero
search results return empty, per-video comment failures are skipped,
and zero collected comments return empty. -/
def fetchFromYouTube (apiKey : Option String) (env : YTEnv) (keywords : List String)
    (timeperiod now : Int) (rng : Nat → ℚ) : List InsertComment :=
  match apiKey with
  | none => createCommentsData "YouTube" (keywords.headD "") timeperiod now rng
  | some _ =>
    match env.search with
    | .httpErr status => if status = 403 then [] else []
    | .netErr => []
    | .ok videoIds =>
      if videoIds.length = 0 then []
      else
        let comments := videoIds.foldl
          (fun acc videoId =>
            match env.commentThreads videoId with
            | .ok items => acc ++ items.map (ytComment videoId)
            | _ => acc)
          []
        if comments.length = 0 then [] else comments

/-- VideoItem is one video search result of the title search. -/
structure VideoItem where
  videoId : String
  title : String
deriving DecidableEq, Repr

/-- VideoStats is the statistics block of the video-details response. -/
structure VideoStats where
  viewCount : ℤ
  likeCount : ℤ
  commentCount : ℤ
  channelTitle : String
deriving DecidableEq, Repr

/-- YTTitleEnv is the upstream oracle of the title-search fetch: the
video search, the video details, and per comment type a stream of page
outcomes indexed by call number, each carrying whether a next-page
token was present. -/
structure YTTitleEnv where
  search : FetchOutcome (List VideoItem)
  details : FetchOutcome VideoStats
  pages : String → Nat → FetchOutcome (Bool × List RawYTComment)

/-- isDuplicateIn models the dedup check: a non-metadata comment with
the same source url was already accumulated. -/
def isDuplicateIn (acc : List InsertComment) (url : String) : Bool :=
  acc.any (fun existing => !existing.isVideoMetadata && existing.sourceUrl == some url)

/-- dedupPageItems converts one page of raw comments, dropping items
whose derived url already occurs in the accumulated list. -/
def dedupPageItems (acc : List InsertComment) (videoId : String)
    (items : List RawYTComment) : List InsertComment :=
  items.foldl
    (fun nc item =>
      let commentUrl := "https://www.youtube.com/watch?v=" ++ videoId ++ "&lc=" ++ item.commentId
      if isDuplicateIn acc commentUrl then nc else nc ++ [ytComment videoId item])
    []

/-- fetchSimplePages models the low-comment-count pagination loop of
the title search: no retries, stop on failure, empty page, reaching the
reported count, or a missing next-page token. -/
def fetchSimplePages (env : YTTitleEnv) (videoId : String) (commentCount : ℤ) :
    Nat → Nat → Nat → List InsertComment → List InsertComment
  | 0, _, _, acc => acc
  | fuel + 1, callIdx, fetched, acc =>
    match env.pages "commentThreads" callIdx with
    | .ok pg =>
      if pg.2.length > 0 then
        let newComments := dedupPageItems acc videoId pg.2
        let fetched2 := fetched + newComments.length
        let acc2 := acc ++ newComments
        if (fetched2 : ℤ) ≥ commentCount then acc2
        else if pg.1 then fetchSimplePages env videoId commentCount fuel (callIdx + 1) fetched2 acc2
        else acc2
      else acc
    | _ => acc

/-- PagSt is the state shared by the two comment-type pagination loops:
the accumulated comments, the total fetched and the failed attempts. -/
structure PagSt where
  acc : List InsertComment
  totalFetched : Nat
  failedAttempts : Nat

/-- fetchTypePages models one comment-type pagination loop of the title
search with its retry semantics: a failed call increments the failure
count and retries only while the retry budget lasts and a next-page
token from the previous successful page is still in hand (the loop
condition of the do-while); a successful page resets the retry count,
accumulates deduplicated items, and continues while a next-page token
exists and the early-stop condition does not hold. -/
def fetchTypePages (env : YTTitleEnv) (videoId : String) (commentType : String)
    (commentCount : ℤ) : Nat → Nat → Nat → Bool → PagSt → PagSt
  | 0, _, _, _, st => st
  | fuel + 1, callIdx, retryCount, hasNextPrev, st =>
    match env.pages commentType callIdx with
    | .ok pg =>
      if pg.2.length > 0 then
        let newComments := dedupPageItems st.acc videoId pg.2
        let st2 : PagSt :=
          { st with acc := st.acc ++ newComments,
                    totalFetched := st.totalFetched + newComments.length }
        let sufficientComments :=
          st2.totalFetched > 200 ∨ (st2.totalFetched : ℚ) ≥ (commentCount : ℚ) * (8/10)
        if !pg.1 ∨ (sufficientComments ∧ st2.failedAttempts > 0) then st2
        else fetchTypePages env videoId commentType commentCount fuel (callIdx + 1) 0 pg.1 st2
      else st
    | _ =>
      let st2 : PagSt := { st with failedAttempts := st.failedAttempts + 1 }
      if retryCount < 3 then
        if hasNextPrev then
          fetchTypePages env videoId commentType commentCount fuel (callIdx + 1)
            (retryCount + 1) hasNextPrev st2
        else st2
      else st2

/-- videoMetadataText is the serialized JSON blob of the video-metadata
pseudo-record. -/
def videoMetadataText (title videoId channelTitle : String)
    (viewCount likeCount commentCount : ℤ) (url : String) : String :=
  "\x7b\"title\":\"" ++ title ++ "\",\"videoId\":\"" ++ videoId
    ++ "\",\"channelTitle\":\"" ++ channelTitle
    ++ "\",\"viewCount\":" ++ toString viewCount
    ++ ",\"likeCount\":" ++ toString likeCount
    ++ ",\"commentCount\":" ++ toString commentCount
    ++ ",\"url\":\"" ++ url ++ "\"\x7d"

/-- videoMetadataRecord is the video-metadata pseudo-record pushed ahead
of the real comments in the title-search flow. -/
def videoMetadataRecord (actualTitle videoId channelTitle : String)
    (viewCount likeCount commentCount : ℤ) (videoUrl : String) (now : Int) : InsertComment :=
  { searchQueryId := 0, platform := "YouTube", userName := "VIDEO_METADATA",
    userId := some "VIDEO_METADATA",
    text := videoMetadataText actualTitle videoId channelTitle viewCount likeCount commentCount videoUrl,
    translation := none, language := "English", sentiment := "neutral",
    topics := ["video_metadata"], engagementScore := some (viewCount : ℚ),
    createdAt := some now, sourceUrl := some videoUrl, isVideoMetadata := true }

/-- commentMetricText is the serialized JSON blob of the
retrieval-completeness pseudo-record. -/
def commentMetricText (reported retrieved percentage : ℤ) : String :=
  "\x7b\"commentCounts\":\x7b\"reported\":" ++ toString reported
    ++ ",\"retrieved\":" ++ toString retrieved
    ++ ",\"percentage\":" ++ toString percentage
    ++ "\x7d,\"info\":\"Some comments may not be accessible via the YouTube API\"\x7d"

/-- commentMetricRecord is the retrieval-completeness pseudo-record
appended when retrieval falls significantly short of the reported
comment count. -/
def commentMetricRecord (reported retrieved percentage : ℤ) (videoUrl : String)
    (now : Int) : InsertComment :=
  { searchQueryId := 0, platform := "YouTube", userName := "VIDEO_INFO",
    userId := some "VIDEO_INFO", text := commentMetricText reported retrieved percentage,
    translation := none, language := "English", sentiment := "neutral",
    topics := ["video_info"], engagementScore := some 0, createdAt := some now,
    sourceUrl := some videoUrl, isCommentMetric := true }

/-- base36Digit renders one base-36 digit as 0-9 then a-z. -/
def base36Digit (n : Nat) : Char :=
  if n < 10 then Char.ofNat (48 + n) else Char.ofNat (87 + n)

/-- randVideoId models Math.random().toString(36).substring(2,12): the
first ten base-36 fraction digits of the draw. -/
def randVideoId (r : ℚ) : String :=
  String.mk ((List.range 10).map (fun i => base36Digit ((jsFloor (r * ((36 : ℚ) ^ (i + 1)))).toNat % 36)))

/-- splitOnSpace models String.prototype.split with a single-space
separator (runs of spaces produce empty parts). -/
def splitOnSpace (s : String) : List String :=
  (s.data.splitOn ' ').map String.mk

/-- mockChannelTitle derives the fake channel name from the video
title, as the title-search sample generator does. -/
def mockChannelTitle (videoTitle : String) : String :=
  let titleParts := splitOnSpace videoTitle
  if titleParts.length > 2 then
    if strIncludes videoTitle "View From The Top" then
      "Stanford Graduate School of Business"
    else if titleParts.any (fun part => jsToLower part == "talk" || jsToLower part == "lecture") then
      "Academic Lectures"
    else if titleParts.any (fun part => jsToLower part == "interview") then
      (titleParts.headD "") ++ " Interviews"
    else
      (titleParts.headD "") ++ " " ++ ((titleParts.get? 1).getD "")
  else "Channel"

/-- titleSampleKeywords extracts the title words of length above three
with non-word characters removed, used to fill comment templates. -/
def titleSampleKeywords (videoTitle : String) : List String :=
  ((splitOnSpace videoTitle).filter (fun word => word.length > 3)).map
    (fun word => String.mk (word.data.filter (fun c => c.isAlphanum || c == '_' || c.isWhitespace)))

/-- kwAt picks the cycling keyword for template slot i with the
template's fallback, modelling indexing plus the falsy-or fallback. -/
def kwAt (keywords : List String) (i : Nat) (fallback : String) : String :=
  match keywords with
  | [] => fallback
  | _ =>
    let w := (keywords.get? (i % keywords.length)).getD ""
    if w == "" then fallback else w

/-- positiveTitleTemplate is the positive comment template for slot i. -/
def positiveTitleTemplate (keywords : List String) (i : Nat) : String :=
  match i % 5 with
  | 0 => "Great video about " ++ kwAt keywords i "this topic" ++ ". Very insightful!"
  | 1 => "I learned so much from this. Thanks for sharing " ++ kwAt keywords i "these" ++ " insights."
  | 2 => "This is exactly what I needed to understand " ++ kwAt keywords i "this subject" ++ " better. Well done!"
  | 3 => "The discussion on " ++ kwAt keywords i "this" ++ " was particularly helpful. Thanks!"
  | _ => "Really enjoyed this perspective on " ++ kwAt keywords i "the topic" ++ ". Very clear explanation."

/-- neutralTitleTemplate is the neutral comment template for slot i. -/
def neutralTitleTemplate (keywords : List String) (i : Nat) : String :=
  match i % 5 with
  | 0 => "Interesting points about " ++ kwAt keywords i "this topic" ++ ". I\x27d like to know more."
  | 1 => "I have a question about " ++ kwAt keywords i "something" ++ " mentioned at 12:34. Could anyone clarify?"
  | 2 => "This reminds me of another video on " ++ kwAt keywords i "this subject" ++ ". Worth comparing."
  | 3 => "Does anyone have additional resources on " ++ kwAt keywords i "this" ++ "?"
  | _ => "I\x27m not sure if I agree with all points, but it\x27s definitely thought-provoking."

/-- negativeTitleTemplate is the negative comment template for slot i. -/
def negativeTitleTemplate (keywords : List String) (i : Nat) : String :=
  match i % 5 with
  | 0 => "I disagree with the points made about " ++ kwAt keywords i "this topic" ++ ". Here\x27s why..."
  | 1 => "The section on " ++ kwAt keywords i "that" ++ " was confusing and could have been explained better."
  | 2 => "I expected more in-depth analysis on " ++ kwAt keywords i "these issues" ++ ". Disappointed."
  | 3 => "The sound quality made it hard to follow the discussion on " ++ kwAt keywords i "important points" ++ "."
  | _ => "I think there are some factual errors regarding " ++ kwAt keywords i "certain claims" ++ " that should be addressed."

/-- perplexityComments are the themed sample comments substituted for
videos about the Perplexity interview. -/
def perplexityComments : List String := [
  "Perplexity\x27s approach to AI search is revolutionary compared to traditional search engines.",
  "I\x27ve been using Perplexity daily and it\x27s changed how I do research online.",
  "Interesting to hear about the challenges of building an AI-native search product.",
  "The discussion about hallucinations in AI responses was particularly insightful.",
  "I\x27m curious how Perplexity plans to monetize while keeping the core product free.",
  "Aravind\x27s background at DeepMind and OpenAI clearly shaped his vision for Perplexity.",
  "The part about responsible AI and attribution was really important.",
  "How does Perplexity compare to Claude or ChatGPT for research tasks?",
  "I like how they\x27re focused on citations and not just generating answers.",
  "Would love to hear more about the technical infrastructure behind Perplexity."]

/-- titleSampleComment builds sample comment i of the title-search mock
dataset; the four random draws starting at base are the sentiment roll,
the day offset, the user name and the engagement score. -/
def titleSampleComment (videoTitle videoUrl : String) (keywords : List String)
    (timeperiod now : Int) (rng : Nat → ℚ) (i : Nat) (base : Nat) : InsertComment :=
  let sentimentRoll := rng base
  let sentiment0 :=
    if sentimentRoll > 65/100 then "positive"
    else if sentimentRoll > 35/100 then "neutral"
    else "negative"
  let randomDays := jsFloor (rng (base + 1) * (timeperiod : ℚ))
  let commentDate := now - randomDays
  let userName := getRandomUserName "English" (rng (base + 2))
  let commentText0 :=
    if sentiment0 == "positive" then positiveTitleTemplate keywords i
    else if sentiment0 == "neutral" then neutralTitleTemplate keywords i
    else negativeTitleTemplate keywords i
  let isPerplexity :=
    strIncludes (jsToLower videoTitle) "perplexity" ||
    strIncludes (jsToLower videoTitle) "aravind srinivas"
  let commentText :=
    if isPerplexity then (perplexityComments.get? (i % perplexityComments.length)).getD ""
    else commentText0
  let sentiment :=
    if isPerplexity then
      if strIncludes commentText "revolutionary" || strIncludes commentText "changed how I" ||
         strIncludes commentText "like how they\x27re" then "positive"
      else if strIncludes commentText "curious" || strIncludes commentText "compare" ||
              strIncludes commentText "how does" then "neutral"
      else sentiment0
    else sentiment0
  { searchQueryId := 0, platform := "YouTube", userName := userName,
    userId := some (stripWs (jsToLower userName)), text := commentText,
    translation := none, language := "English", sentiment := sentiment, topics := [],
    engagementScore := some ((jsFloor (rng (base + 3) * 50)) : ℚ),
    createdAt := some commentDate,
    sourceUrl := some (videoUrl ++ "&lc=sample" ++ toString i) }

/-- createVideoTitleCommentsData is the sample dataset generator of the
title-search flow: a video-metadata pseudo-record followed by 10 to 25
templated comments. -/
def createVideoTitleCommentsData (_platform videoTitle : String) (timeperiod now : Int)
    (rng : Nat → ℚ) : List InsertComment :=
  let videoId := randVideoId (rng 0)
  let videoUrl := "https://www.youtube.com/watch?v=" ++ videoId
  let viewCount := jsFloor (rng 1 * 1000000)
  let likeCount := jsFloor ((viewCount : ℚ) * (5/100))
  let commentCount := jsFloor (rng 2 * 1000)
  let channelTitle := mockChannelTitle videoTitle
  let metadata := videoMetadataRecord videoTitle videoId channelTitle viewCount likeCount
    commentCount videoUrl now
  let commentsCount := (jsFloor (rng 3 * 15) + 10).toNat
  let keywords := titleSampleKeywords videoTitle
  metadata ::
    (List.range commentsCount).map (fun i =>
      titleSampleComment videoTitle videoUrl keywords timeperiod now rng i (4 + 4 * i))

/-- collectTitleComments is the success path of the title search after
the video is resolved: the metadata record, then the pagination flow
selected by the reported comment count, then the conditional
retrieval-completeness record. -/
def collectTitleComments (env : YTTitleEnv) (videoId actualTitle videoUrl : String)
    (stats : VideoStats) (now : Int) (fuel : Nat) : List InsertComment :=
  let commentCount := stats.commentCount
  let comments0 := [videoMetadataRecord actualTitle videoId stats.channelTitle stats.viewCount
    stats.likeCount commentCount videoUrl now]
  let collected :=
    if commentCount ≤ 3 then
      fetchSimplePages env videoId commentCount fuel 0 0 comments0
    else
      let st1 := fetchTypePages env videoId "commentThreads" commentCount fuel 0 0 false
        ⟨comments0, 0, 0⟩
      (fetchTypePages env videoId "comments" commentCount fuel 0 0 false st1).acc
  let actualCommentCount :=
    (collected.filter (fun c => !c.isVideoMetadata && !c.isCommentMetric)).length
  if commentCount > 0 ∧ actualCommentCount > 0 then
    let retrievalPercentage := min 100 (jsRound ((actualCommentCount : ℚ) / (commentCount : ℚ) * 100))
    let significantDifference :=
      retrievalPercentage < 95 ∧ commentCount - (actualCommentCount : ℤ) > 2
    if significantDifference then
      collected ++ [commentMetricRecord commentCount actualCommentCount retrievalPercentage videoUrl now]
    else collected
  else collected

/-- fetchFromYouTubeByTitle models the exact-title YouTube fetch: sample
data when no API key is configured, but also sample data when the key
is present and the search returns 403, the search or details call
throws, or no videos are found; on success it pushes the video-metadata
record, pages through comments (one simple loop for reported counts up
to three, otherwise the two retrying comment-type loops), and appends
the retrieval-completeness record when retrieval falls short. -/
def fetchFromYouTubeByTitle (apiKey : Option String) (env : YTTitleEnv) (videoTitle : String)
    (timeperiod now : Int) (rng : Nat → ℚ) (fuel : Nat) : List InsertComment :=
  match apiKey with
  | none => createVideoTitleCommentsData "YouTube" videoTitle timeperiod now rng
  | some _ =>
    match env.search with
    | .httpErr status =>
      if status = 403 then createVideoTitleCommentsData "YouTube" videoTitle timeperiod now rng
      else createVideoTitleCommentsData "YouTube" videoTitle timeperiod now rng
    | .netErr => createVideoTitleCommentsData "YouTube" videoTitle timeperiod now rng
    | .ok items =>
      match items with
      | [] => createVideoTitleCommentsData "YouTube" videoTitle timeperiod now rng
      | it0 :: _ =>
        let videoItem :=
          (items.find? (fun it => jsToLower it.title == jsToLower videoTitle)).getD it0
        let videoId := videoItem.videoId
        let actualTitle := videoItem.title
        let videoUrl := "https://www.youtube.com/watch?v=" ++ videoId
        match env.details with
        | .netErr => createVideoTitleCommentsData "YouTube" videoTitle timeperiod now rng
        | .httpErr _ =>
          collectTitleComments env videoId actualTitle videoUrl ⟨0, 0, 0, ""⟩ now fuel
        | .ok stats =>
          collectTitleComments env videoId actualTitle videoUrl stats now fuel

end MediaCollector

/-- rngHalf is a concrete random stream that always draws one half. -/
def rngHalf : Nat → ℚ := fun _ => 1/2

/-- metaOnlyComment is a stored video-metadata pseudo-record used to
exercise the all-metadata-filtered comment set. -/
def metaOnlyComment : Comment :=
  { id := 1, searchQueryId := 1, platform := "YouTube", userName := "VIDEO_METADATA",
    userId := some "VIDEO_METADATA", text := "metadata", translation := none,
    language := "English", sentiment := "neutral", topics := ["video_metadata"],
    engagementScore := some 0, createdAt := some 0, collectedAt := some 0,
    sourceUrl := none, isVideoMetadata := true }

/-- noKeysApiKeys is the initial credential map with no key configured. -/
def noKeysApiKeys : List (String × Option String) :=
  [("youtube", none), ("twitter", none), ("facebook", none), ("instagram", none)]

/-- stMetaOnly is a store whose only stored comment set consists of one
metadata pseudo-record and zero actual comments. -/
def stMetaOnly : StorageState :=
  { searchQueries := [], comments := [(1, [metaOnlyComment])], commentIdCounter := 2,
    searchQueryIdCounter := 1, cachedAnalytics := [], apiKeys := noKeysApiKeys }

/-- mkPlainComment builds a plain stored comment with the given id and
sentiment, created today at day zero. -/
def mkPlainComment (i : Nat) (s : String) : Comment :=
  { id := i, searchQueryId := 1, platform := "YouTube", userName := "user1",
    userId := none, text := "text", translation := none, language := "English",
    sentiment := s, topics := [], engagementScore := some 0, createdAt := some 0,
    collectedAt := some 0, sourceUrl := none }

/-- oneToSevenComments is a comment set of one positive and seven
negative comments, all on the same day. -/
def oneToSevenComments : List Comment :=
  [mkPlainComment 1 "positive", mkPlainComment 2 "negative", mkPlainComment 3 "negative",
   mkPlainComment 4 "negative", mkPlainComment 5 "negative", mkPlainComment 6 "negative",
   mkPlainComment 7 "negative", mkPlainComment 8 "negative"]

/-- stOneToSeven is a store holding the one-positive seven-negative
comment set under query id one. -/
def stOneToSeven : StorageState :=
  { searchQueries := [], comments := [(1, oneToSevenComments)], commentIdCounter := 9,
    searchQueryIdCounter := 1, cachedAnalytics := [], apiKeys := noKeysApiKeys }

/-- emptyStateAnalytics builds an all-zero analytics value carrying the
given insight message, used as a concrete cached value. -/
def emptyStateAnalytics (msg : String) (qid : Nat) : Analytics :=
  { metrics := { totalComments := 0, positiveSentiment := 0, negativeSentiment := 0,
                 engagementRate := 0, changes := ⟨0, 0, 0, 0⟩ },
    sentimentTrend := [], topicDistribution := [], platformDistribution := [],
    topKeywords := [], influencers := [], aiInsights := msg, searchQueryId := qid }

/-- stTwoMatching is a store with two queries matching the same
keyword, time period and platform tuple, the second created later, each
with its own cached analytics. -/
def stTwoMatching : StorageState :=
  { searchQueries :=
      [{ id := 1, keyword := "k", timeperiod := 30, platform := "all", createdAt := 100, userId := none },
       { id := 2, keyword := "k", timeperiod := 30, platform := "all", createdAt := 200, userId := none }],
    comments := [], commentIdCounter := 1, searchQueryIdCounter := 3,
    cachedAnalytics := [(1, emptyStateAnalytics "first" 1), (2, emptyStateAnalytics "second" 2)],
    apiKeys := noKeysApiKeys }

/-- emptyStore is a store with nothing in it. -/
def emptyStore : StorageState :=
  { searchQueries := [], comments := [], commentIdCounter := 1, searchQueryIdCounter := 1,
    cachedAnalytics := [], apiKeys := noKeysApiKeys }

/-- mkInsert builds a plain inserted comment with the given text. -/
def mkInsert (t : String) : InsertComment :=
  { searchQueryId := 0, platform := "YouTube", userName := "u", userId := none, text := t,
    translation := none, language := "English", sentiment := "neutral", topics := ["general"],
    engagementScore := some 0, createdAt := some 0, sourceUrl := none }

/-- threeSentimentsOneUser is three comments of one user with one
comment of each sentiment. -/
def threeSentimentsOneUser : List Comment :=
  [mkPlainComment 1 "positive", mkPlainComment 2 "negative", mkPlainComment 3 "neutral"]

/-- oneUserInfluencer is the influencer entry the ranking produces for
the three-sentiment one-user comment set. -/
def oneUserInfluencer : Influencer :=
  { name := "user1", handle := "user1", platform := "YouTube", commentCount := 3,
    engagementLevel := "Low", sentiment := ⟨33, 33, 33⟩ }

/-- stQueryNoComments is a store with one saved query and no stored
comments, ready for empty-state analytics generation. -/
def stQueryNoComments : StorageState :=
  { searchQueries :=
      [{ id := 1, keyword := "k", timeperiod := 30, platform := "all", createdAt := 5, userId := none }],
    comments := [], commentIdCounter := 1, searchQueryIdCounter := 2,
    cachedAnalytics := [], apiKeys := noKeysApiKeys }

/-- env403 is a title-search upstream where the video search always
answers Forbidden. -/
def env403 : MediaCollector.YTTitleEnv :=
  { search := .httpErr 403, details := .httpErr 500, pages := fun _ _ => .netErr }

/-- envKeyErr is a keyword-search upstream whose video search fails
with a server error. -/
def envKeyErr : MediaCollector.YTEnv :=
  { search := .httpErr 500, commentThreads := fun _ => .netErr }

/-- envKeyNet is a keyword-search upstream whose video search rejects. -/
def envKeyNet : MediaCollector.YTEnv :=
  { search := .netErr, commentThreads := fun _ => .netErr }

/-- envKeyEmpty is a keyword-search upstream that finds no videos. -/
def envKeyEmpty : MediaCollector.YTEnv :=
  { search := .ok [], commentThreads := fun _ => .netErr }

/-- envKeyNoComments is a keyword-search upstream that finds one video
with no comments. -/
def envKeyNoComments : MediaCollector.YTEnv :=
  { search := .ok ["v1"], commentThreads := fun _ => .ok [] }

/-- jsRound is bounded above by its argument plus one half. -/
theorem jsRound_le (x : ℚ) : (jsRound x : ℚ) ≤ x + 1/2 := by
  unfold jsRound
  exact_mod_cast Int.floor_le (x + 1/2)

/-- jsRound is bounded below strictly by its argument minus one half. -/
theorem jsRound_gt (x : ℚ) : x - 1/2 < (jsRound x : ℚ) := by
  unfold jsRound
  have h := Int.lt_floor_add_one (x + 1/2)
  push_cast at h ⊢
  linarith

/-- roundSum_le_101 bounds the sum of two roundings of values that
together do not exceed one hundred. -/
theorem roundSum_le_101 {a b : ℚ} (h : a + b ≤ 100) : jsRound a + jsRound b ≤ 101 := by
  have ha := jsRound_le a
  have hb := jsRound_le b
  have : ((jsRound a + jsRound b : ℤ) : ℚ) ≤ 101 := by push_cast; linarith
  exact_mod_cast this

/-- roundTriple_bounds pins the sum of three roundings of values that
sum to exactly one hundred between 99 and 101. -/
theorem roundTriple_bounds {a b c : ℚ} (h : a + b + c = 100) :
    99 ≤ jsRound a + jsRound b + jsRound c ∧ jsRound a + jsRound b + jsRound c ≤ 101 := by
  have ha := jsRound_le a
  have hb := jsRound_le b
  have hc := jsRound_le c
  have ha2 := jsRound_gt a
  have hb2 := jsRound_gt b
  have hc2 := jsRound_gt c
  constructor
  · have : (98.5 : ℚ) < ((jsRound a + jsRound b + jsRound c : ℤ) : ℚ) := by push_cast; linarith
    have h99 : (98 : ℤ) < jsRound a + jsRound b + jsRound c := by
      by_contra hcon
      push_neg at hcon
      have : ((jsRound a + jsRound b + jsRound c : ℤ) : ℚ) ≤ 98 := by exact_mod_cast hcon
      linarith
    omega
  · have : ((jsRound a + jsRound b + jsRound c : ℤ) : ℚ) ≤ 101.5 := by push_cast; linarith
    have h101 : (jsRound a + jsRound b + jsRound c : ℤ) < 102 := by
      by_contra hcon
      push_neg at hcon
      have : (102 : ℚ) ≤ ((jsRound a + jsRound b + jsRound c : ℤ) : ℚ) := by exact_mod_cast hcon
      linarith
    omega

/-- pctSum_le_100 bounds the sum of two percentage shares of a total. -/
theorem pctSum_le_100 {p n t : ℕ} (hle : p + n ≤ t) (ht : 0 < t) :
    (p : ℚ) / (t : ℚ) * 100 + (n : ℚ) / (t : ℚ) * 100 ≤ 100 := by
  have ht2 : (0 : ℚ) < (t : ℚ) := by exact_mod_cast ht
  have hle2 : (p : ℚ) + (n : ℚ) ≤ (t : ℚ) := by exact_mod_cast hle
  rw [div_mul_eq_mul_div, div_mul_eq_mul_div, div_add_div_same, div_le_iff₀ ht2]
  nlinarith

/-- filterDisjoint_le bounds the two filter counts of pointwise
incompatible predicates by the list length. -/
theorem filterDisjoint_le {α : Type} (l : List α) (p q : α → Bool)
    (h : ∀ x, ¬(p x = true ∧ q x = true)) :
    (l.filter p).length + (l.filter q).length ≤ l.length := by
  induction l with
  | nil => simp
  | cons a as ih =>
    cases hp : p a with
    | true =>
      cases hq : q a with
      | true => exact absurd ⟨hp, hq⟩ (h a)
      | false =>
        simp [List.filter_cons, hp, hq]
        omega
    | false =>
      cases hq : q a with
      | true =>
        simp [List.filter_cons, hp, hq]
        omega
      | false =>
        simp [List.filter_cons, hp, hq]
        omega

/-- assocGet_assocSet_self: setting a key makes lookups of that key
return the new value. -/
theorem assocGet_assocSet_self {α : Type} (l : List (Nat × α)) (k : Nat) (v : α) :
    assocGet (assocSet l k v) k = some v := by
  unfold assocSet
  by_cases h : (l.find? (fun kv => kv.1 == k)).isSome
  · rw [if_pos h]
    unfold assocGet
    rw [List.find?_map]
    have hpf : ((fun kv : Nat × α => kv.1 == k) ∘ fun kv : Nat × α =>
        if kv.1 == k then (k, v) else kv) = fun kv : Nat × α => kv.1 == k := by
      funext kv
      by_cases hk : kv.1 = k
      · simp [hk]
      · simp [hk]
    rw [hpf]
    rcases Option.isSome_iff_exists.mp h with ⟨e, he⟩
    have hek := List.find?_some he
    have hek2 : e.1 = k := by simpa using hek
    rw [he]
    simp [hek2]
  · rw [if_neg h]
    unfold assocGet
    rw [List.find?_append]
    have hnone : l.find? (fun kv => kv.1 == k) = none := by
      rcases Option.eq_none_or_eq_some (l.find? (fun kv => kv.1 == k)) with h1 | ⟨a, h1⟩
      · exact h1
      · rw [h1] at h
        simp at h
    rw [hnone]
    simp

/-- trendLoop_length: the trend has exactly one entry per window day. -/
theorem trendLoop_length (rng : Nat → ℚ) (days : List (Int × MemStorage.DayData))
    (last : MemStorage.LastPct) (idx : Nat) :
    (MemStorage.trendLoop rng days last idx).length = days.length := by
  induction days generalizing last idx with
  | nil => rfl
  | cons d rest ih =>
    rcases d with ⟨date, dd⟩
    unfold MemStorage.trendLoop
    by_cases h : dd.total > 0
    · simp only [if_pos h, List.length_cons]
      rw [ih]
    · simp only [if_neg h, List.length_cons]
      rw [ih]

/-- trendLoop_getD_data: the entry of a day with data is the rounded
data entry of that day, independent of the synthesised state. -/
theorem trendLoop_getD_data (rng : Nat → ℚ) (days : List (Int × MemStorage.DayData))
    (last : MemStorage.LastPct) (idx : Nat) (i : Nat) (hi : i < days.length)
    (hdata : 0 < (days.getD i (0, ⟨0, 0, 0, 0⟩)).2.total) :
    (MemStorage.trendLoop rng days last idx).getD i ⟨0, 0, 0, 0⟩ =
      MemStorage.trendDataEntry (days.getD i (0, ⟨0, 0, 0, 0⟩)).1
        (days.getD i (0, ⟨0, 0, 0, 0⟩)).2 := by
  induction days generalizing last idx i with
  | nil => simp at hi
  | cons d rest ih =>
    rcases d with ⟨date, dd⟩
    cases i with
    | zero =>
      simp only [List.getD_cons_zero] at hdata ⊢
      unfold MemStorage.trendLoop
      simp only [if_pos hdata, List.getD_cons_zero]
    | succ j =>
      simp only [List.getD_cons_succ] at hdata ⊢
      have hj : j < rest.length := by
        simp only [List.length_cons] at hi
        omega
      unfold MemStorage.trendLoop
      by_cases h : dd.total > 0
      · simp only [if_pos h, List.getD_cons_succ]
        exact ih _ _ j hj hdata
      · simp only [if_neg h, List.getD_cons_succ]
        exact ih _ _ j hj hdata

/-- dayDataFor_le: the positive and negative counts of a day bucket
never exceed its total. -/
theorem dayDataFor_le (cds : List (Comment × Int)) (date : Int) :
    (MemStorage.dayDataFor cds date).positive + (MemStorage.dayDataFor cds date).negative ≤
      (MemStorage.dayDataFor cds date).total := by
  unfold MemStorage.dayDataFor
  suffices h : ∀ acc : MemStorage.DayData, acc.positive + acc.negative ≤ acc.total →
      (cds.foldl _ acc).positive + (cds.foldl _ acc).negative ≤ (cds.foldl _ acc).total by
    exact h ⟨0, 0, 0, 0⟩ (by simp)
  intro acc hacc
  induction cds generalizing acc with
  | nil => simpa using hacc
  | cons cd rest ih =>
    simp only [List.foldl_cons]
    apply ih
    by_cases hd : cd.2 = date
    · by_cases hp : cd.1.sentiment == "positive"
      · simp only [if_pos hd, if_pos hp]
        omega
      · by_cases hn : cd.1.sentiment == "negative"
        · simp only [if_pos hd, if_neg hp, if_pos hn]
          omega
        · simp only [if_pos hd, if_neg hp, if_neg hn]
          omega
    · simpa only [if_neg hd] using hacc

/-- trendDataEntry_props: a data-day entry sums to exactly one hundred
and its derived neutral is at least minus one. -/
theorem trendDataEntry_props (date : Int) (d : MemStorage.DayData)
    (h1 : 0 < d.total) (h2 : d.positive + d.negative ≤ d.total) :
    (MemStorage.trendDataEntry date d).positive + (MemStorage.trendDataEntry date d).neutral +
        (MemStorage.trendDataEntry date d).negative = 100 ∧
      -1 ≤ (MemStorage.trendDataEntry date d).neutral := by
  have hsum := pctSum_le_100 h2 h1
  have hb := roundSum_le_101 hsum
  unfold MemStorage.trendDataEntry
  dsimp only
  constructor
  · ring
  · omega

/-- mem_insertDescBy: membership in an insertion is membership in the
inserted element or the base list. -/
theorem mem_insertDescBy {α : Type} (key : α → ℤ) (x y : α) (l : List α) :
    y ∈ insertDescBy key x l ↔ y = x ∨ y ∈ l := by
  induction l with
  | nil => simp [insertDescBy]
  | cons a as ih =>
    unfold insertDescBy
    by_cases h : key a < key x
    · simp [if_pos h, List.mem_cons]
    · simp only [if_neg h, List.mem_cons, ih]
      tauto

/-- mem_sortDescBy: sorting preserves membership. -/
theorem mem_sortDescBy {α : Type} (key : α → ℤ) (l : List α) (y : α) :
    y ∈ sortDescBy key l ↔ y ∈ l := by
  unfold sortDescBy
  suffices h : ∀ acc : List α, y ∈ l.foldl (fun acc x => insertDescBy key x acc) acc ↔
      y ∈ acc ∨ y ∈ l by
    simpa using h []
  intro acc
  induction l generalizing acc with
  | nil => simp
  | cons a as ih =>
    simp only [List.foldl_cons, ih, mem_insertDescBy, List.mem_cons]
    tauto

/-- groups_nonempty: every user group built by the influencer grouping
holds at least one comment. -/
theorem groups_nonempty (comments : List Comment) (acc : List (String × MemStorage.UserGroup))
    (hacc : ∀ kv ∈ acc, kv.2.comments ≠ []) :
    ∀ kv ∈ comments.foldl MemStorage.addToGroups acc, kv.2.comments ≠ [] := by
  induction comments generalizing acc with
  | nil => simpa using hacc
  | cons c rest ih =>
    simp only [List.foldl_cons]
    apply ih
    intro kv hkv
    unfold MemStorage.addToGroups at hkv
    simp only [] at hkv
    split at hkv
    · simp only [List.mem_append, List.mem_singleton] at hkv
      rcases hkv with h1 | h1
      · exact hacc kv h1
      · rw [h1]
        simp
    · simp only [List.mem_map] at hkv
      rcases hkv with ⟨kv0, hkv0, heq⟩
      by_cases hk : kv0.1 == MemStorage.groupKey c
      · rw [if_pos hk] at heq
        rw [← heq]
        simp
      · rw [if_neg hk] at heq
        rw [← heq]
        exact hacc kv0 hkv0

/-- mkInfluencer_sum bounds the sentiment-percentage sum of an entry
built from a nonempty group between 99 and 101. -/
theorem mkInfluencer_sum (g : MemStorage.UserGroup) (hne : g.comments ≠ []) :
    99 ≤ (MemStorage.mkInfluencer g).sentiment.positive +
        (MemStorage.mkInfluencer g).sentiment.neutral +
        (MemStorage.mkInfluencer g).sentiment.negative ∧
      (MemStorage.mkInfluencer g).sentiment.positive +
        (MemStorage.mkInfluencer g).sentiment.neutral +
        (MemStorage.mkInfluencer g).sentiment.negative ≤ 101 := by
  have hcnt0 : 0 < g.comments.length := List.length_pos.mpr hne
  have hdisj : (g.comments.filter (fun c => c.sentiment == "positive")).length +
      (g.comments.filter (fun c => c.sentiment == "negative")).length ≤ g.comments.length := by
    apply filterDisjoint_le
    intro c hc
    rcases hc with ⟨h1, h2⟩
    have e1 : c.sentiment = "positive" := by simpa using h1
    have e2 : c.sentiment = "negative" := by simpa using h2
    rw [e1] at e2
    exact absurd e2 (by decide)
  set cnt := g.comments.length with hcntdef
  set p := (g.comments.filter (fun c => c.sentiment == "positive")).length with hpdef
  set n := (g.comments.filter (fun c => c.sentiment == "negative")).length with hndef
  have hc0 : ((cnt : ℚ)) ≠ 0 := Nat.cast_ne_zero.mpr (by omega)
  have hsumnat : p + (cnt - p - n) + n = cnt := by omega
  have hsum : (p : ℚ) + ((cnt - p - n : ℕ) : ℚ) + (n : ℚ) = (cnt : ℚ) := by
    exact_mod_cast hsumnat
  have key : ((p : ℚ) / (cnt : ℚ) * 100) + (((cnt - p - n : ℕ) : ℚ) / (cnt : ℚ) * 100) +
      ((n : ℚ) / (cnt : ℚ) * 100) = 100 := by
    field_simp
    linarith
  have hb := roundTriple_bounds key
  unfold MemStorage.mkInfluencer
  dsimp only
  exact hb

/-- C7 amended: each influencer entry's sentiment-percentage sum lies
between 99 and 101 (the three shares are rounded independently). -/
theorem C7_influencer_pcts (comments : List Comment) (inf : Influencer)
    (hmem : inf ∈ MemStorage.findInfluencers comments) :
    99 ≤ inf.sentiment.positive + inf.sentiment.neutral + inf.sentiment.negative ∧
      inf.sentiment.positive + inf.sentiment.neutral + inf.sentiment.negative ≤ 101 := by
  unfold MemStorage.findInfluencers at hmem
  simp only [] at hmem
  have h1 := List.mem_of_mem_take hmem
  rw [mem_sortDescBy] at h1
  simp only [List.mem_map] at h1
  rcases h1 with ⟨kv, hkv, heq⟩
  have hne := groups_nonempty comments [] (by simp) kv hkv
  rw [← heq]
  exact mkInfluencer_sum kv.2 hne

/-- C7: the claim that influencer sentiment percentages sum to exactly
100 fails on the code: a group of three comments with one comment of
each sentiment yields the triple 33/33/33, which sums to 99. -/
theorem C7_counterexample :
    (MemStorage.findInfluencers threeSentimentsOneUser).map (fun inf => inf.sentiment) =
      [⟨33, 33, 33⟩] ∧ (33 : ℤ) + 33 + 33 ≠ 100 := by
  constructor
  · norm_num +decide [MemStorage.findInfluencers, MemStorage.addToGroups, MemStorage.groupKey,
      MemStorage.mkInfluencer, sortDescBy, insertDescBy, stripWs, jsToLower,
      threeSentimentsOneUser, mkPlainComment, jsRound, List.filter_cons, List.filter_nil]
  · decide

/-- C7 witness: the bound theorem applied to the concrete
one-of-each-sentiment group. -/
theorem C7_witness :
    99 ≤ oneUserInfluencer.sentiment.positive + oneUserInfluencer.sentiment.neutral +
        oneUserInfluencer.sentiment.negative ∧
      oneUserInfluencer.sentiment.positive + oneUserInfluencer.sentiment.neutral +
        oneUserInfluencer.sentiment.negative ≤ 101 := by
  exact C7_influencer_pcts threeSentimentsOneUser oneUserInfluencer
    (by norm_num +decide [MemStorage.findInfluencers, MemStorage.addToGroups,
      MemStorage.groupKey, MemStorage.mkInfluencer, sortDescBy, insertDescBy, stripWs,
      jsToLower, threeSentimentsOneUser, mkPlainComment, jsRound, List.filter_cons,
      List.filter_nil])

/-- generalFallback: the general-tag fallback guarantees a nonempty
topic list. -/
theorem generalFallback (l : List String) :
    (if l.length = 0 then TopicExtractor.setAdd l "general" else l) ≠ [] := by
  by_cases h : l.length = 0
  · have hl : l = [] := List.length_eq_zero.mp h
    subst hl
    simp [TopicExtractor.setAdd]
  · simp only [if_neg h]
    intro habs
    exact h (by simp [habs])

/-- extractTopicsFromText_ne_nil: topic extraction from text always
returns at least one topic. -/
theorem extractTopicsFromText_ne_nil (text lang sentiment : String) :
    TopicExtractor.extractTopicsFromText text lang sentiment ≠ [] := by
  unfold TopicExtractor.extractTopicsFromText
  apply generalFallback

/-- tagComment_of_nonempty: a comment already carrying topics passes
through the tagger unchanged. -/
theorem tagComment_of_nonempty (c : InsertComment) (h : c.topics ≠ []) :
    TopicExtractor.tagComment c = c := by
  unfold TopicExtractor.tagComment
  rw [if_pos]
  exact List.length_pos.mpr h

/-- tagComment_idem: tagging a comment twice equals tagging it once. -/
theorem tagComment_idem (c : InsertComment) :
    TopicExtractor.tagComment (TopicExtractor.tagComment c) = TopicExtractor.tagComment c := by
  by_cases h : c.topics = []
  · have hc : TopicExtractor.tagComment c =
        { c with topics := TopicExtractor.extractTopicsFromText c.text c.language c.sentiment } := by
      unfold TopicExtractor.tagComment
      rw [if_neg (by simp [h])]
    rw [hc]
    apply tagComment_of_nonempty
    simpa using extractTopicsFromText_ne_nil c.text c.language c.sentiment
  · rw [tagComment_of_nonempty c h]
    exact tagComment_of_nonempty c h

/-- C8: a comment whose topics are already nonempty is returned
unchanged by the topic extractor, and a second batch application yields
the same result as the first (idempotence, no duplication). -/
theorem C8_topic_tagger_idempotent :
    (∀ c : InsertComment, c.topics ≠ [] → TopicExtractor.extractTopics [c] = [c]) ∧
      (∀ l : List InsertComment,
        TopicExtractor.extractTopics (TopicExtractor.extractTopics l) =
          TopicExtractor.extractTopics l) := by
  constructor
  · intro c h
    unfold TopicExtractor.extractTopics
    simp [tagComment_of_nonempty c h]
  · intro l
    unfold TopicExtractor.extractTopics
    rw [List.map_map]
    apply List.map_congr_left
    intro c _
    exact tagComment_idem c

/-- C8 witness: the tagger leaves a concrete already-tagged comment
unchanged. -/
theorem C8_witness : TopicExtractor.extractTopics [mkInsert "hello"] = [mkInsert "hello"] :=
  C8_topic_tagger_idempotent.1 (mkInsert "hello") (by decide)

/-- C9: the sentiment classifier is a pure function of its input text:
two invocations on equal texts return equal labels and equal scores. -/
theorem C9_classifier_deterministic (t1 t2 : String) (h : t1 = t2) :
    SentimentAnalyzer.analyze t1 = SentimentAnalyzer.analyze t2 := by
  rw [h]

/-- C9 witness: determinism applied at a concrete input. -/
theorem C9_witness :
    SentimentAnalyzer.analyze "good service" = SentimentAnalyzer.analyze "good service" :=
  C9_classifier_deterministic "good service" "good service" rfl

/-- C6: the claim that classifying the empty string returns score zero
fails on the code: the empty string reaches the final neutral branch,
which returns the fixed low-confidence score one, not zero. -/
theorem C6_counterexample :
    (SentimentAnalyzer.analyze "").sentiment = "neutral" ∧
      (SentimentAnalyzer.analyze "").score ≠ 0 := by
  have h : SentimentAnalyzer.analyze "" = ⟨"neutral", 1⟩ := by
    norm_num +decide [SentimentAnalyzer.analyze, SentimentAnalyzer.containsNeutralName,
      SentimentAnalyzer.textContainsOnlyName, SentimentAnalyzer.aiEnhancedAnalysis,
      SentimentAnalyzer.analyzeEmojiPatterns, SentimentAnalyzer.analyzeTeluguPraisePhrases,
      SentimentAnalyzer.analyzeTeluguPoliticalSentiment, scanCount, scanCountAux,
      SentimentAnalyzer.heartEmojiAlts, SentimentAnalyzer.positiveEmojiAlts,
      SentimentAnalyzer.multipleEmojiTest, SentimentAnalyzer.repeatedEmojiTest, anySuffix,
      SentimentAnalyzer.emojiRunFrom, strIncludes, charsInfixOf, charsPrefixOf,
      strStartsWithOneOf, jsToLower, jsSplitWs, nonWsRuns, SentimentAnalyzer.lexStep,
      SentimentAnalyzer.neutralNames, trimWs, SentimentAnalyzer.punctChars]
  rw [h]
  norm_num

/-- C6 amended: classifying the empty string returns neutral with the
fixed low-confidence score one. -/
theorem C6_amended : SentimentAnalyzer.analyze "" = ⟨"neutral", 1⟩ := by
  norm_num +decide [SentimentAnalyzer.analyze, SentimentAnalyzer.containsNeutralName,
    SentimentAnalyzer.textContainsOnlyName, SentimentAnalyzer.aiEnhancedAnalysis,
    SentimentAnalyzer.analyzeEmojiPatterns, SentimentAnalyzer.analyzeTeluguPraisePhrases,
    SentimentAnalyzer.analyzeTeluguPoliticalSentiment, scanCount, scanCountAux,
    SentimentAnalyzer.heartEmojiAlts, SentimentAnalyzer.positiveEmojiAlts,
    SentimentAnalyzer.multipleEmojiTest, SentimentAnalyzer.repeatedEmojiTest, anySuffix,
    SentimentAnalyzer.emojiRunFrom, strIncludes, charsInfixOf, charsPrefixOf,
    strStartsWithOneOf, jsToLower, jsSplitWs, nonWsRuns, SentimentAnalyzer.lexStep,
    SentimentAnalyzer.neutralNames, trimWs, SentimentAnalyzer.punctChars]

/-- C5: the claim that saveComments appends to the existing comment set
fails on the code: after saving batch A and then batch B for the same
query id, the stored set holds only B's comment. -/
theorem C5_counterexample :
    ((assocGet (MemStorage.saveComments (MemStorage.saveComments emptyStore 1 [mkInsert "a"] 0)
          1 [mkInsert "b"] 0).comments 1).getD []).map (fun c => c.text) = ["b"] ∧
      "a" ∉ ((assocGet (MemStorage.saveComments (MemStorage.saveComments emptyStore 1
          [mkInsert "a"] 0) 1 [mkInsert "b"] 0).comments 1).getD []).map (fun c => c.text) := by
  constructor
  · decide
  · decide

/-- C5 amended: saveComments stores the batch with Map.set, so a second
save for the same query id replaces the stored set with exactly the new
batch (ids continuing from the counter after the first save). -/
theorem C5_saveComments_replaces (st : StorageState) (id : Nat) (a b : List InsertComment)
    (nowA nowB : Int) :
    assocGet ((MemStorage.saveComments (MemStorage.saveComments st id a nowA) id b nowB).comments) id =
      some (b.enum.map (fun ic =>
        MemStorage.toStoredComment ic.2 (st.commentIdCounter + a.length + ic.1) id nowB)) := by
  unfold MemStorage.saveComments
  dsimp only
  rw [assocGet_assocSet_self]

/-- find?_first_match: find? on a decomposed list returns the first
matching element. -/
theorem find?_first_match {α : Type} (p : α → Bool) (pre post : List α) (q : α)
    (hpre : ∀ x ∈ pre, p x = false) (hq : p q = true) :
    (pre ++ q :: post).find? p = some q := by
  induction pre with
  | nil =>
    simp only [List.nil_append]
    exact List.find?_cons_of_pos _ hq
  | cons a as ih =>
    have ha : p a = false := hpre a (by simp)
    rw [List.cons_append, List.find?_cons_of_neg _ (by simp [ha])]
    exact ih (fun x hx => hpre x (by simp [hx]))

/-- C4: the claim that the cached lookup returns the most recent
matching query's analytics fails on the code: with two matching queries
where the second was created later and carries different cached
analytics, the lookup returns the first (oldest) query's analytics. -/
theorem C4_counterexample :
    (stTwoMatching.searchQueries.filter (fun query =>
        query.keyword == "k" && query.timeperiod == 30 && query.platform == "all")).length = 2 ∧
      (stTwoMatching.searchQueries.get? 0).map (fun q => q.createdAt) = some 100 ∧
      (stTwoMatching.searchQueries.get? 1).map (fun q => q.createdAt) = some 200 ∧
      assocGet stTwoMatching.cachedAnalytics 2 = some (emptyStateAnalytics "second" 2) ∧
      (MemStorage.getSearchResultsByKeyword stTwoMatching "k" 30 "all").map
          (fun r => r.analytics.aiInsights) = some "first" ∧
      (MemStorage.getSearchResultsByKeyword stTwoMatching "k" 30 "all").map
          (fun r => r.analytics) ≠ some (emptyStateAnalytics "second" 2) := by
  refine ⟨by decide, by decide, by decide, by decide, by decide, by decide⟩

/-- C4 amended: the lookup returns the cached analytics of the first
matching query in creation (Map insertion) order. -/
theorem C4_amended (st : StorageState) (kw : String) (tp : Int) (pf : String)
    (pre post : List SearchQuery) (q : SearchQuery) (a : Analytics)
    (hsplit : st.searchQueries = pre ++ q :: post)
    (hpre : ∀ x ∈ pre, (x.keyword == kw && x.timeperiod == tp && x.platform == pf) = false)
    (hq : (q.keyword == kw && q.timeperiod == tp && q.platform == pf) = true)
    (hcache : assocGet st.cachedAnalytics q.id = some a) :
    MemStorage.getSearchResultsByKeyword st kw tp pf =
      some { keyword := kw, timeperiod := tp, platform := pf, analytics := a,
             lastUpdated := q.createdAt, hasMoreComments := true } := by
  unfold MemStorage.getSearchResultsByKeyword
  rw [hsplit, find?_first_match _ pre post q hpre hq]
  dsimp only
  rw [hcache]

/-- C4 witness: the first-match lookup applied to the concrete
two-matching-query store. -/
theorem C4_witness :
    MemStorage.getSearchResultsByKeyword stTwoMatching "k" 30 "all" =
      some { keyword := "k", timeperiod := 30, platform := "all",
             analytics := emptyStateAnalytics "first" 1, lastUpdated := 100,
             hasMoreComments := true } := by
  apply C4_amended stTwoMatching "k" 30 "all" []
    [{ id := 2, keyword := "k", timeperiod := 30, platform := "all", createdAt := 200,
       userId := none }]
    { id := 1, keyword := "k", timeperiod := 30, platform := "all", createdAt := 100,
      userId := none }
    (emptyStateAnalytics "first" 1)
  · decide
  · decide
  · decide
  · decide

/-- generateAnalytics_empty: with an empty stored comment set the
aggregator takes the mock (empty-state) path. -/
theorem generateAnalytics_empty (st : StorageState) (qid : Nat) (today : Int) (rng : Nat → ℚ)
    (hempty : (assocGet st.comments qid).getD [] = []) :
    MemStorage.generateAnalytics st qid today rng = MemStorage.generateMockAnalytics st qid := by
  unfold MemStorage.generateAnalytics
  rw [hempty]
  simp

/-- mock_state_fields: the mock path leaves the queries untouched and
caches the produced analytics under the query id. -/
theorem mock_state_fields (st : StorageState) (qid : Nat) :
    (MemStorage.generateMockAnalytics st qid).2.searchQueries = st.searchQueries ∧
      (MemStorage.generateMockAnalytics st qid).2.cachedAnalytics =
        assocSet st.cachedAnalytics qid (MemStorage.generateMockAnalytics st qid).1 := by
  unfold MemStorage.generateMockAnalytics
  dsimp only
  exact ⟨rfl, rfl⟩

/-- C10: generating analytics for a query with an empty stored comment
set writes the empty-state analytics into the cache like any result, so
a later lookup by the same keyword, time period and platform tuple
returns exactly that cached empty-state analytics. -/
theorem C10_empty_state_cached (st : StorageState) (qid : Nat) (kw : String) (tp : Int)
    (pf : String) (today : Int) (rng : Nat → ℚ) (q : SearchQuery)
    (hempty : (assocGet st.comments qid).getD [] = [])
    (hfind : st.searchQueries.find? (fun query =>
      query.keyword == kw && query.timeperiod == tp && query.platform == pf) = some q)
    (hqid : q.id = qid) :
    MemStorage.getSearchResultsByKeyword (MemStorage.generateAnalytics st qid today rng).2
        kw tp pf =
      some { keyword := kw, timeperiod := tp, platform := pf,
             analytics := (MemStorage.generateAnalytics st qid today rng).1,
             lastUpdated := q.createdAt, hasMoreComments := true } ∧
      (MemStorage.generateAnalytics st qid today rng).1 =
        (MemStorage.generateMockAnalytics st qid).1 := by
  have hmock := generateAnalytics_empty st qid today rng hempty
  rw [hmock]
  constructor
  · unfold MemStorage.getSearchResultsByKeyword
    rw [(mock_state_fields st qid).1, hfind]
    dsimp only
    rw [hqid, (mock_state_fields st qid).2, assocGet_assocSet_self]
  · rfl

/-- C10 witness: the cached empty-state lookup at a concrete store with
one saved query and no comments. -/
theorem C10_witness :
    MemStorage.getSearchResultsByKeyword
        (MemStorage.generateAnalytics stQueryNoComments 1 0 rngHalf).2 "k" 30 "all" =
      some { keyword := "k", timeperiod := 30, platform := "all",
             analytics := (MemStorage.generateAnalytics stQueryNoComments 1 0 rngHalf).1,
             lastUpdated := 5, hasMoreComments := true } ∧
      (MemStorage.generateAnalytics stQueryNoComments 1 0 rngHalf).1 =
        (MemStorage.generateMockAnalytics stQueryNoComments 1).1 :=
  C10_empty_state_cached stQueryNoComments 1 "k" 30 "all" 0 rngHalf
    { id := 1, keyword := "k", timeperiod := 30, platform := "all", createdAt := 5,
      userId := none }
    (by decide) (by decide) (by decide)

/-- generateSentimentTrend_length: the trend always has thirty entries,
one per day of the window. -/
theorem generateSentimentTrend_length (comments : List Comment) (today : Int) (rng : Nat → ℚ) :
    (MemStorage.generateSentimentTrend comments today rng).length = 30 := by
  unfold MemStorage.generateSentimentTrend
  dsimp only
  rw [trendLoop_length]
  unfold MemStorage.trendDays
  dsimp only
  rw [List.length_map]
  unfold MemStorage.initDays
  simp

/-- C1: with a stored set holding only a video-metadata pseudo-record
(zero actual comments), the aggregator misses the empty-state guard,
which tests the raw stored length, and produces a thirty-entry
synthesised sentiment trend instead of the documented empty-state
analytics with an empty trend. -/
theorem C1_metadata_only_not_empty_state :
    (MemStorage.generateAnalytics stMetaOnly 1 0 rngHalf).1.metrics.totalComments = 0 ∧
      (MemStorage.generateAnalytics stMetaOnly 1 0 rngHalf).1.sentimentTrend.length = 30 ∧
      (MemStorage.generateAnalytics stMetaOnly 1 0 rngHalf).1.sentimentTrend ≠ [] := by
  have hproj : (MemStorage.generateAnalytics stMetaOnly 1 0 rngHalf).1.metrics.totalComments = 0 ∧
      (MemStorage.generateAnalytics stMetaOnly 1 0 rngHalf).1.sentimentTrend =
        MemStorage.generateSentimentTrend [] 0 rngHalf := by
    constructor <;>
      simp +decide [MemStorage.generateAnalytics, stMetaOnly, metaOnlyComment, assocGet,
        List.filter_cons, List.filter_nil]
  refine ⟨hproj.1, ?_, ?_⟩
  · rw [hproj.2, generateSentimentTrend_length]
  · rw [hproj.2]
    apply List.ne_nil_of_length_pos
    rw [generateSentimentTrend_length]
    norm_num

/-- C3: the claim that the derived neutral percentage is never negative
fails on the code: with one positive and seven negative comments the
rounded percentages are 13 and 88, so the derived neutral is minus one. -/
theorem C3_counterexample :
    (MemStorage.generateAnalytics stOneToSeven 1 0 rngHalf).1.metrics.positiveSentiment = 13 ∧
      (MemStorage.generateAnalytics stOneToSeven 1 0 rngHalf).1.metrics.negativeSentiment = 88 ∧
      100 - (MemStorage.generateAnalytics stOneToSeven 1 0 rngHalf).1.metrics.positiveSentiment -
          (MemStorage.generateAnalytics stOneToSeven 1 0 rngHalf).1.metrics.negativeSentiment
        < 0 := by
  have hp : (MemStorage.generateAnalytics stOneToSeven 1 0 rngHalf).1.metrics.positiveSentiment
      = 13 := by
    norm_num +decide [MemStorage.generateAnalytics, stOneToSeven, oneToSevenComments,
      mkPlainComment, assocGet, List.filter_cons, List.filter_nil, jsRound]
  have hn : (MemStorage.generateAnalytics stOneToSeven 1 0 rngHalf).1.metrics.negativeSentiment
      = 88 := by
    norm_num +decide [MemStorage.generateAnalytics, stOneToSeven, oneToSevenComments,
      mkPlainComment, assocGet, List.filter_cons, List.filter_nil, jsRound]
  refine ⟨hp, hn, ?_⟩
  rw [hp, hn]
  norm_num

/-- generateAnalytics_sentiments exposes the rounded sentiment
percentages of the non-mock path symbolically. -/
theorem generateAnalytics_sentiments (st : StorageState) (qid : Nat) (today : Int)
    (rng : Nat → ℚ) (h : ¬((assocGet st.comments qid).getD []).length = 0) :
    (MemStorage.generateAnalytics st qid today rng).1.metrics.positiveSentiment =
      jsRound ((((((assocGet st.comments qid).getD []).filter
          (fun c => !c.isVideoMetadata && !c.isCommentMetric)).filter
            (fun c => c.sentiment == "positive")).length : ℚ) /
        (((((assocGet st.comments qid).getD []).filter
          (fun c => !c.isVideoMetadata && !c.isCommentMetric)).length : ℚ)) * 100) ∧
      (MemStorage.generateAnalytics st qid today rng).1.metrics.negativeSentiment =
        jsRound ((((((assocGet st.comments qid).getD []).filter
            (fun c => !c.isVideoMetadata && !c.isCommentMetric)).filter
              (fun c => c.sentiment == "negative")).length : ℚ) /
          (((((assocGet st.comments qid).getD []).filter
            (fun c => !c.isVideoMetadata && !c.isCommentMetric)).length : ℚ)) * 100) := by
  unfold MemStorage.generateAnalytics
  rw [if_neg h]
  exact ⟨rfl, rfl⟩

/-- trendDays_length: the window always holds thirty day buckets. -/
theorem trendDays_length (comments : List Comment) (today : Int) (rng : Nat → ℚ) :
    (MemStorage.trendDays comments today rng).1.length = 30 := by
  unfold MemStorage.trendDays
  dsimp only
  rw [List.length_map]
  unfold MemStorage.initDays
  rw [List.length_map, List.length_range]

/-- trendDays_getD_bound: each day bucket's positive and negative
counts are bounded by its total. -/
theorem trendDays_getD_bound (comments : List Comment) (today : Int) (rng : Nat → ℚ)
    (i : Nat) (hi : i < 30) :
    ((MemStorage.trendDays comments today rng).1.getD i (0, ⟨0, 0, 0, 0⟩)).2.positive +
        ((MemStorage.trendDays comments today rng).1.getD i (0, ⟨0, 0, 0, 0⟩)).2.negative ≤
      ((MemStorage.trendDays comments today rng).1.getD i (0, ⟨0, 0, 0, 0⟩)).2.total := by
  have hlen : i < (MemStorage.trendDays comments today rng).1.length := by
    rw [trendDays_length]
    exact hi
  rw [List.getD_eq_getElem _ _ hlen]
  unfold MemStorage.trendDays at hlen ⊢
  dsimp only at hlen ⊢
  rw [List.getElem_map]
  exact dayDataFor_le _ _

/-- C3 amended: the rounded positive and negative percentages plus the
derived neutral remainder sum to exactly 100, and the derived neutral is
at least minus one (it can be negative, but only by one) — both in the
metrics of a nonempty actual-comment set and in every sentiment-trend
entry of a day with at least one comment. -/
theorem C3_amended :
    (∀ (st : StorageState) (qid : Nat) (today : Int) (rng : Nat → ℚ),
      0 < (((assocGet st.comments qid).getD []).filter
          (fun c => !c.isVideoMetadata && !c.isCommentMetric)).length →
      ((MemStorage.generateAnalytics st qid today rng).1.metrics.positiveSentiment +
            (MemStorage.generateAnalytics st qid today rng).1.metrics.negativeSentiment +
            (100 - (MemStorage.generateAnalytics st qid today rng).1.metrics.positiveSentiment -
              (MemStorage.generateAnalytics st qid today rng).1.metrics.negativeSentiment) =
          100) ∧
        -1 ≤ 100 - (MemStorage.generateAnalytics st qid today rng).1.metrics.positiveSentiment -
            (MemStorage.generateAnalytics st qid today rng).1.metrics.negativeSentiment) ∧
    (∀ (comments : List Comment) (today : Int) (rng : Nat → ℚ) (i : Nat), i < 30 →
      0 < ((MemStorage.trendDays comments today rng).1.getD i (0, ⟨0, 0, 0, 0⟩)).2.total →
      ((MemStorage.generateSentimentTrend comments today rng).getD i ⟨0, 0, 0, 0⟩).positive +
            ((MemStorage.generateSentimentTrend comments today rng).getD i ⟨0, 0, 0, 0⟩).neutral +
            ((MemStorage.generateSentimentTrend comments today rng).getD i ⟨0, 0, 0, 0⟩).negative =
          100 ∧
        -1 ≤ ((MemStorage.generateSentimentTrend comments today rng).getD i ⟨0, 0, 0, 0⟩).neutral) := by
  constructor
  · intro st qid today rng hpos
    have hraw : ¬((assocGet st.comments qid).getD []).length = 0 := by
      intro h0
      have := List.length_filter_le (fun c => !c.isVideoMetadata && !c.isCommentMetric)
        ((assocGet st.comments qid).getD [])
      omega
    rcases generateAnalytics_sentiments st qid today rng hraw with ⟨hp, hn⟩
    rw [hp, hn]
    have hdisj : ((((assocGet st.comments qid).getD []).filter
          (fun c => !c.isVideoMetadata && !c.isCommentMetric)).filter
            (fun c => c.sentiment == "positive")).length +
        ((((assocGet st.comments qid).getD []).filter
          (fun c => !c.isVideoMetadata && !c.isCommentMetric)).filter
            (fun c => c.sentiment == "negative")).length ≤
        (((assocGet st.comments qid).getD []).filter
          (fun c => !c.isVideoMetadata && !c.isCommentMetric)).length := by
      apply filterDisjoint_le
      intro c hc
      rcases hc with ⟨h1, h2⟩
      have e1 : c.sentiment = "positive" := by simpa using h1
      have e2 : c.sentiment = "negative" := by simpa using h2
      rw [e1] at e2
      exact absurd e2 (by decide)
    have hsum := pctSum_le_100 hdisj hpos
    have hb := roundSum_le_101 hsum
    constructor
    · ring
    · omega
  · intro comments today rng i hi hday
    have hlen : i < (MemStorage.trendDays comments today rng).1.length := by
      rw [trendDays_length]
      exact hi
    have hloop : MemStorage.generateSentimentTrend comments today rng =
        MemStorage.trendLoop rng (MemStorage.trendDays comments today rng).1 ⟨33, 34, 33⟩
          (MemStorage.trendDays comments today rng).2 := rfl
    rw [hloop, trendLoop_getD_data rng _ _ _ i hlen hday]
    have hb := trendDays_getD_bound comments today rng i hi
    exact trendDataEntry_props _ _ hday hb

/-- C3 witness: the amended invariants applied at the concrete
one-positive seven-negative store and at a data day of its trend. -/
theorem C3_witness :
    ((MemStorage.generateAnalytics stOneToSeven 1 0 rngHalf).1.metrics.positiveSentiment +
        (MemStorage.generateAnalytics stOneToSeven 1 0 rngHalf).1.metrics.negativeSentiment +
        (100 - (MemStorage.generateAnalytics stOneToSeven 1 0 rngHalf).1.metrics.positiveSentiment -
          (MemStorage.generateAnalytics stOneToSeven 1 0 rngHalf).1.metrics.negativeSentiment) =
      100) ∧
      -1 ≤ 100 - (MemStorage.generateAnalytics stOneToSeven 1 0 rngHalf).1.metrics.positiveSentiment -
          (MemStorage.generateAnalytics stOneToSeven 1 0 rngHalf).1.metrics.negativeSentiment :=
  C3_amended.1 stOneToSeven 1 0 rngHalf (by decide)

/-- createVideoTitleCommentsData_ne_nil: the title-search sample
dataset always starts with the metadata record, so it is nonempty. -/
theorem createVideoTitleCommentsData_ne_nil (p t : String) (tp now : Int) (rng : Nat → ℚ) :
    MediaCollector.createVideoTitleCommentsData p t tp now rng ≠ [] := by
  unfold MediaCollector.createVideoTitleCommentsData
  dsimp only
  exact List.cons_ne_nil _ _

/-- ytFold_nil: the per-video collection loop contributes nothing when
every video's comment call fails or returns no items. -/
theorem ytFold_nil (env : MediaCollector.YTEnv) (vids : List String)
    (h : ∀ v ∈ vids, env.commentThreads v = .ok [] ∨ env.commentThreads v = .netErr ∨
      ∃ s, env.commentThreads v = .httpErr s) (acc : List InsertComment) :
    vids.foldl (fun acc videoId =>
      match env.commentThreads videoId with
      | .ok items => acc ++ items.map (MediaCollector.ytComment videoId)
      | _ => acc) acc = acc := by
  induction vids generalizing acc with
  | nil => rfl
  | cons v rest ih =>
    simp only [List.foldl_cons]
    rcases h v (by simp) with h1 | h1 | ⟨s, h1⟩
    · rw [h1]
      dsimp only
      rw [List.map_nil, List.append_nil]
      exact ih (fun x hx => h x (by simp [hx])) acc
    · rw [h1]
      exact ih (fun x hx => h x (by simp [hx])) acc
    · rw [h1]
      exact ih (fun x hx => h x (by simp [hx])) acc

/-- C2 amended: with a credential configured, the keyword YouTube fetch
returns an empty list on a failed search, a rejected search, zero video
results, or zero collected comments; the title-search fetch however
substitutes the sample dataset (a nonempty list) when the search fails
with 403 even though a credential is present. -/
theorem C2_amended :
    (∀ (key : String) (env : MediaCollector.YTEnv) (keywords : List String) (tp now : Int)
        (rng : Nat → ℚ) (s : Nat), env.search = .httpErr s →
      MediaCollector.fetchFromYouTube (some key) env keywords tp now rng = []) ∧
      (∀ (key : String) (env : MediaCollector.YTEnv) (keywords : List String) (tp now : Int)
          (rng : Nat → ℚ), env.search = .netErr →
        MediaCollector.fetchFromYouTube (some key) env keywords tp now rng = []) ∧
      (∀ (key : String) (env : MediaCollector.YTEnv) (keywords : List String) (tp now : Int)
          (rng : Nat → ℚ), env.search = .ok [] →
        MediaCollector.fetchFromYouTube (some key) env keywords tp now rng = []) ∧
      (∀ (key : String) (env : MediaCollector.YTEnv) (keywords : List String) (tp now : Int)
          (rng : Nat → ℚ) (vids : List String), env.search = .ok vids →
        (∀ v ∈ vids, env.commentThreads v = .ok [] ∨ env.commentThreads v = .netErr ∨
          ∃ s, env.commentThreads v = .httpErr s) →
        MediaCollector.fetchFromYouTube (some key) env keywords tp now rng = []) ∧
      (∀ (key : String) (env2 : MediaCollector.YTTitleEnv) (title : String) (tp now : Int)
          (rng : Nat → ℚ) (fuel : Nat), env2.search = .httpErr 403 →
        MediaCollector.fetchFromYouTubeByTitle (some key) env2 title tp now rng fuel =
            MediaCollector.createVideoTitleCommentsData "YouTube" title tp now rng ∧
          MediaCollector.fetchFromYouTubeByTitle (some key) env2 title tp now rng fuel ≠ []) := by
  refine ⟨?_, ?_, ?_, ?_, ?_⟩
  · intro key env keywords tp now rng s hs
    unfold MediaCollector.fetchFromYouTube
    rw [hs]
    dsimp only
    by_cases h403 : s = 403
    · rw [if_pos h403]
    · rw [if_neg h403]
  · intro key env keywords tp now rng hs
    unfold MediaCollector.fetchFromYouTube
    rw [hs]
  · intro key env keywords tp now rng hs
    unfold MediaCollector.fetchFromYouTube
    rw [hs]
    rfl
  · intro key env keywords tp now rng vids hs hv
    unfold MediaCollector.fetchFromYouTube
    rw [hs]
    dsimp only
    by_cases hlen : vids.length = 0
    · rw [if_pos hlen]
    · rw [if_neg hlen, ytFold_nil env vids hv []]
      rfl
  · intro key env2 title tp now rng fuel hs
    constructor
    · unfold MediaCollector.fetchFromYouTubeByTitle
      rw [hs]
      dsimp only
      rw [if_pos rfl]
    · unfold MediaCollector.fetchFromYouTubeByTitle
      rw [hs]
      dsimp only
      exact createVideoTitleCommentsData_ne_nil "YouTube" title tp now rng

/-- C2 witness: the empty-on-failure behaviour and the title-search
sample substitution at concrete upstream oracles. -/
theorem C2_witness :
    MediaCollector.fetchFromYouTube (some "key") envKeyErr ["kw"] 30 0 rngHalf = [] ∧
      MediaCollector.fetchFromYouTube (some "key") envKeyNet ["kw"] 30 0 rngHalf = [] ∧
      MediaCollector.fetchFromYouTube (some "key") envKeyEmpty ["kw"] 30 0 rngHalf = [] ∧
      MediaCollector.fetchFromYouTube (some "key") envKeyNoComments ["kw"] 30 0 rngHalf = [] ∧
      (MediaCollector.fetchFromYouTubeByTitle (some "key") env403 "title" 30 0 rngHalf 10 =
          MediaCollector.createVideoTitleCommentsData "YouTube" "title" 30 0 rngHalf ∧
        MediaCollector.fetchFromYouTubeByTitle (some "key") env403 "title" 30 0 rngHalf 10 ≠ []) :=
  ⟨C2_amended.1 "key" envKeyErr ["kw"] 30 0 rngHalf 500 rfl,
   C2_amended.2.1 "key" envKeyNet ["kw"] 30 0 rngHalf rfl,
   C2_amended.2.2.1 "key" envKeyEmpty ["kw"] 30 0 rngHalf rfl,
   C2_amended.2.2.2.1 "key" envKeyNoComments ["kw"] 30 0 rngHalf ["v1"] rfl
     (fun _ _ => Or.inl rfl),
   C2_amended.2.2.2.2 "key" env403 "title" 30 0 rngHalf 10 rfl⟩

/-- C2: the claim that sample data is never substituted when a
credential is present fails on the code: the title-search fetch with a
configured key and a Forbidden search response returns the sample
dataset, which is nonempty, instead of the empty list the claim
requires. -/
theorem C2_counterexample :
    MediaCollector.fetchFromYouTubeByTitle (some "key") env403 "title" 30 0 rngHalf 10 =
        MediaCollector.createVideoTitleCommentsData "YouTube" "title" 30 0 rngHalf ∧
      MediaCollector.fetchFromYouTubeByTitle (some "key") env403 "title" 30 0 rngHalf 10 ≠ [] := by
  constructor
  · rfl
  · intro habs
    have h2 : MediaCollector.createVideoTitleCommentsData "YouTube" "title" 30 0 rngHalf = [] := by
      rw [← habs]
      rfl
    exact createVideoTitleCommentsData_ne_nil "YouTube" "title" 30 0 rngHalf h2
